import Mathlib

/-!
Verification of the pyBingeBuddy synchronization and alerting pipeline.

Shallow embedding of the relevant parts of `pyBingeBuddy.py` and
`tasks_sync_and_alerts.py`:

* nullable SQL/text values are `Option String`; Python truthiness of such a
  value is `pyTruthy` (both `None` and the empty string are falsy);
* external effects (SMTP delivery, TMDB fetches) are modelled by explicit
  outcome parameters / fetcher records, so every definition is executable;
* Python exceptions are `PyError` values threaded through `Except` or carried
  in results; each SQL statement's commit is modelled by returning the updated
  store even on the error path, matching the per-statement `conn.commit()`
  calls in the source.
-/

/-- Python truthiness of an optional string: `None` and `""` are falsy. -/
def pyTruthy : Option String → Bool
  | none => false
  | some s => !s.isEmpty

/-- Python exceptions that appear in the modelled code paths. -/
inductive PyError where
  | valueError (msg : String)
  | keyError (key : String)
  | typeError
  | smtpError
  | requestError
  deriving DecidableEq, Repr

namespace PyBingeBuddy

/-- `CARRIER_GATEWAYS` table of `pyBingeBuddy.py` (module level): carrier key
to email-to-SMS domain suffix. -/
def CARRIER_GATEWAYS : List (String × String) :=
  [("att", "@txt.att.net"),
   ("verizon", "@vtext.com"),
   ("tmobile", "@tmomail.net"),
   ("sprint", "@messaging.sprintpcs.com")]

/-- `sms_via_email_address(phone, carrier)`: lowercases the carrier, removes
spaces (`.lower().replace(" ", "")`), and looks it up in `CARRIER_GATEWAYS`;
unknown carriers yield `None`. -/
def sms_via_email_address (phone carrier : String) : Option String :=
  let key := String.mk ((carrier.toList.map Char.toLower).filter (fun c => c ≠ ' '))
  match CARRIER_GATEWAYS.lookup key with
  | none => none
  | some domain => some (phone ++ domain)

/-- `send_sms_via_email(phone_number, carrier, message)`: uses its own local
`gateways` dict (att/verizon/tmobile/sprint, raw carrier key, no
normalization); an unsupported carrier raises `ValueError`, and SMTP delivery
failure raises (there is no try/except in this function). `smtpOk` is the
outcome of the external SMTP session. The message text does not influence
control flow and is omitted. -/
def send_sms_via_email (smtpOk : Bool) (phone_number carrier : String) :
    Except PyError Unit :=
  let gateways : List (String × String) :=
    [("att", "@txt.att.net"),
     ("verizon", "@vtext.com"),
     ("tmobile", "@tmomail.net"),
     ("sprint", "@messaging.sprintpcs.com")]
  match gateways.lookup carrier with
  | none => Except.error (PyError.valueError "Unsupported carrier")
  | some _ =>
      let _ := phone_number
      if smtpOk then Except.ok () else Except.error PyError.smtpError

/-- SMTP configuration and delivery outcome for `send_email`. -/
structure EmailEnv where
  smtp_host : Option String
  smtp_user : Option String
  smtp_pass : Option String
  deliverOk : Bool
  deriving DecidableEq, Repr

/-- `send_email(subject, body, to_addr)`: returns `False` when host, user,
password or recipient is falsy; otherwise attempts delivery, catching any
exception and returning `False` on failure (it never raises). Subject and
body do not influence control flow and are omitted. -/
def send_email (env : EmailEnv) (to_addr : Option String) : Bool :=
  if pyTruthy env.smtp_host && pyTruthy env.smtp_user && pyTruthy env.smtp_pass
      && pyTruthy to_addr then
    env.deliverOk
  else
    false

/-- One row of the `shows` table as read by `check_and_alert_updates`. -/
structure ShowRow where
  name : String
  next_air_date : Option String
  alerted_next_air_date : Option String
  status : Option String
  first_air_date : Option String
  last_air_date : Option String
  deriving DecidableEq, Repr

/-- The fields of a TMDB details payload used by the alert check:
`(details.get("next_episode_to_air") or {}).get("air_date")` and the three
status/date fields written back to the row. -/
structure Fetched where
  next_air_date : Option String
  status : Option String
  first_air_date : Option String
  last_air_date : Option String
  deriving DecidableEq, Repr

/-- Alert configuration as resolved at the top of `check_and_alert_updates`
(the `or DEFAULT` fallbacks are already applied to the three addresses). -/
structure AlertCfg where
  email_to : Option String
  sms_to : Option String
  sms_carrier : Option String
  email_enabled : Bool
  sms_enabled : Bool
  sms_via_email_enabled : Bool
  deriving DecidableEq, Repr

/-- External channel outcomes for one show's dispatch: the email delivery
environment and the SMTP outcomes of the (up to two) `send_sms_via_email`
calls. -/
structure ChannelEnv where
  email : EmailEnv
  smsOk1 : Bool
  smsOk2 : Bool
  deriving DecidableEq, Repr

/-- The `do_sms` and `do_sms_email` branches of `check_and_alert_updates`:
each guarded call to `send_sms_via_email` may raise; the first raise aborts
the second call. Returns the first exception, if any. -/
def sms_sends_error (cfg : AlertCfg) (env : ChannelEnv) : Option PyError :=
  let first : Except PyError Unit :=
    if cfg.sms_enabled && pyTruthy cfg.sms_to then
      send_sms_via_email env.smsOk1 (cfg.sms_to.getD "") (cfg.sms_carrier.getD "")
    else Except.ok ()
  match first with
  | Except.error e => some e
  | Except.ok _ =>
      match (if cfg.sms_via_email_enabled && pyTruthy cfg.sms_to then
               send_sms_via_email env.smsOk2 (cfg.sms_to.getD "") (cfg.sms_carrier.getD "")
             else Except.ok ()) with
      | Except.error e => some e
      | Except.ok _ => none

/-- Result of processing one show in `check_and_alert_updates`: the row as
committed to the store, whether the alert-dispatch block was entered, the
exception that escaped (if any), and whether the email send returned True. -/
structure StepResult where
  row : ShowRow
  attempted : Bool
  raised : Option PyError
  emailed : Bool
  deriving DecidableEq, Repr

/-- The body of the per-show loop of `check_and_alert_updates`:
if the fetched date differs from the stored one, the new date and status
fields are committed at once; then, if the new date is truthy and differs
from `alerted_next_air_date`, the dispatch block runs (email result is
swallowed, `send_sms_via_email` may raise) and, when no exception escapes,
the watermark is committed.  On a raise the earlier commit of the date
fields survives but the watermark update is never reached. -/
def check_and_alert_step (cfg : AlertCfg) (env : ChannelEnv) (details : Fetched)
    (s : ShowRow) : StepResult :=
  let new_date := details.next_air_date
  let old_date := s.next_air_date
  if new_date ≠ old_date then
    let s1 : ShowRow :=
      { s with next_air_date := new_date, status := details.status,
               first_air_date := details.first_air_date,
               last_air_date := details.last_air_date }
    if pyTruthy new_date && new_date ≠ s.alerted_next_air_date then
      let emailed := cfg.email_enabled && pyTruthy cfg.email_to
                       && send_email env.email cfg.email_to
      match sms_sends_error cfg env with
      | some e => { row := s1, attempted := true, raised := some e, emailed := emailed }
      | none =>
          { row := { s1 with alerted_next_air_date := new_date },
            attempted := true, raised := none, emailed := emailed }
    else
      { row := s1, attempted := false, raised := none, emailed := false }
  else
    { row := s, attempted := false, raised := none, emailed := false }

/-- Repeated invocations of the alert check on one show: each run fetches the
given details under the given channel outcomes and applies
`check_and_alert_step` to whatever state the previous run committed (a raise
aborts that run but the next invocation still happens).  Returns the final
row and the number of dispatch attempts. -/
def check_and_alert_runs (cfg : AlertCfg) :
    List (ChannelEnv × Fetched) → ShowRow → ShowRow × Nat
  | [], s => (s, 0)
  | (e, f) :: rest, s =>
      let res := check_and_alert_step cfg e f s
      let tail := check_and_alert_runs cfg rest res.row
      (tail.1, (if res.attempted then 1 else 0) + tail.2)

/-- The whole `for s in shows` loop of `check_and_alert_updates` within a
single run: shows are processed in order and there is no try/except, so the
first escaping exception aborts the loop, leaving every later show's row
untouched.  Returns the rows as left in the store and whether the run was
aborted by an exception. -/
def check_and_alert_updates (cfg : AlertCfg) :
    List (ChannelEnv × Fetched × ShowRow) → List ShowRow × Bool
  | [] => ([], false)
  | (env, d, s) :: rest =>
    let r := check_and_alert_step cfg env d s
    match r.raised with
    | some _ => (r.row :: rest.map (fun x => x.2.2), true)
    | none =>
        let tail := check_and_alert_updates cfg rest
        (r.row :: tail.1, tail.2)

/-- The per-show body of `sync_show_updates` (login-time sync): only a truthy
fetched date that differs from the stored one is persisted, and only the
`next_air_date` column is written (`status` is read but never stored); a
null/absent fetched date leaves the row untouched. Returns the row and
whether an update (and notification block) happened. -/
def sync_show_updates_step (d : Fetched) (s : ShowRow) : ShowRow × Bool :=
  if pyTruthy d.next_air_date && d.next_air_date ≠ s.next_air_date then
    ({ s with next_air_date := d.next_air_date }, true)
  else
    (s, false)

end PyBingeBuddy

namespace Tasks

/-- `CARRIER_GATEWAYS` table of `tasks_sync_and_alerts.py`.  The source stores
templates of the form `"{number}@domain"` whose only use is
`template.format(number=digits)`; each template is therefore modelled by its
domain suffix, and formatting by prepending the digits. -/
def CARRIER_GATEWAYS : List (String × String) :=
  [("att", "@txt.att.net"),
   ("att_mms", "@mms.att.net"),
   ("verizon", "@vtext.com"),
   ("verizon_mms", "@vzwpix.com"),
   ("tmobile", "@tmomail.net"),
   ("sprint", "@messaging.sprintpcs.com"),
   ("googlefi", "@msg.fi.google.com"),
   ("xfinity", "@vtext.com")]

/-- `_sms_email_address()`: reads `ALERT_SMS_TO` and `ALERT_SMS_CARRIER`
(modelled as arguments), lowercases the carrier, returns `None` when either
is falsy or the carrier key is not in `CARRIER_GATEWAYS`, and otherwise
formats the gateway template with the digits of the number. -/
def _sms_email_address (alert_sms_to alert_sms_carrier : Option String) :
    Option String :=
  let number := alert_sms_to
  let carrier := String.mk ((alert_sms_carrier.getD "").toList.map Char.toLower)
  if !pyTruthy number || carrier.isEmpty then none
  else
    match CARRIER_GATEWAYS.lookup carrier with
    | none => none
    | some suffix =>
        some (String.mk ((number.getD "").toList.filter Char.isDigit) ++ suffix)

/-- One row returned by `upcoming_for_user`:
`(show_name, season_number, episode_number, ep_name, air_date)`. -/
abbrev Item := String × Int × Int × String × String

/-- Environment of `send_alert_bundle`: the SMS env vars and the outcomes of
the two independent `_send_email` attempts (each is wrapped in its own
try/except in the source). -/
structure BundleEnv where
  alert_sms_to : Option String
  alert_sms_carrier : Option String
  smsSendOk : Bool
  emailSendOk : Bool
  deriving DecidableEq, Repr

/-- Which channels `send_alert_bundle` attempted and whether each delivery
succeeded (a failed delivery is caught and logged, never re-raised). -/
structure BundleResult where
  smsAttempted : Bool
  smsDelivered : Bool
  emailAttempted : Bool
  emailDelivered : Bool
  deriving DecidableEq, Repr

/-- `send_alert_bundle(email, items)`: no-op on an empty item list; the SMS
channel is attempted only when `_sms_email_address()` resolves, the email
channel only when the recipient string is truthy; each attempt's failure is
caught inside the function. -/
def send_alert_bundle (env : BundleEnv) (email : String) (items : List Item) :
    BundleResult :=
  if items.isEmpty then
    { smsAttempted := false, smsDelivered := false,
      emailAttempted := false, emailDelivered := false }
  else
    let recipients : List String := if email.isEmpty then [] else [email]
    let sms : Bool × Bool :=
      match _sms_email_address env.alert_sms_to env.alert_sms_carrier with
      | some _ => (true, env.smsSendOk)
      | none => (false, false)
    let eml : Bool × Bool :=
      if recipients.isEmpty then (false, false) else (true, env.emailSendOk)
    { smsAttempted := sms.1, smsDelivered := sms.2,
      emailAttempted := eml.1, emailDelivered := eml.2 }

/-- The per-user alert loop of `main()`: each user's upcoming-items query and
dispatch is wrapped in try/except, so a failure for one user is logged and
the loop continues with the next user (`none` marks a skipped user). -/
def alert_all_users (env : BundleEnv) (users : List (Nat × String))
    (itemsOf : Nat → Except PyError (List Item)) :
    List (Nat × Option BundleResult) :=
  users.map (fun u =>
    match itemsOf u.1 with
    | Except.error _ => (u.1, none)
    | Except.ok items => (u.1, some (send_alert_bundle env u.2 items)))

/-- Microseconds per day; `datetime` carries microsecond precision, so local
instants are modelled as integer microsecond counts since the Unix epoch. -/
def MICROS_PER_DAY : Int := 86400000000

/-- Python `weekday()` of a local instant (Monday = 0 … Sunday = 6); the
epoch day 1970-01-01 was a Thursday (weekday 3). -/
def localWeekday (t : Int) : Int := (t.fdiv MICROS_PER_DAY + 3) % 7

/-- Time of day of a local instant, in microseconds since local midnight. -/
def localTimeOfDay (t : Int) : Int := t % MICROS_PER_DAY

/-- `is_alert_window_denver(now_utc)`: converts to America/Denver local time
and returns true only on Sunday between `time(13,0,0)` and `time(23,59,59)`
inclusive.  The `zoneinfo` conversion is external library behaviour and is
modelled, as in the spec's "fixed example timezone offset", by adding a fixed
UTC offset (`denverOffset`, e.g. -7h for MST). 13:00:00 is 46 800 000 000 μs
and 23:59:59.000000 is 86 399 000 000 μs after local midnight. -/
def is_alert_window_denver (denverOffset now_utc : Int) : Bool :=
  let denver := now_utc + denverOffset
  if localWeekday denver ≠ 6 then false
  else
    decide (46800000000 ≤ localTimeOfDay denver)
      && decide (localTimeOfDay denver ≤ 86399000000)

end Tasks

namespace PyBingeBuddy

/-- Value stored in the `shows.next_air_date` column by `upsert_show`.  The
source initializes the local `next_air_date` to `{}` (an empty dict) and only
replaces it by the (possibly `None`) `air_date` when
`details.get("next_episode_to_air")` is truthy, so the bound parameter can be
a string, `None`, or the empty dict itself. -/
inductive PyVal where
  | pynone
  | str (s : String)
  | emptyDict
  deriving DecidableEq, Repr

/-- Lift an optional string to a `PyVal`. -/
def pyvalOfOpt : Option String → PyVal
  | none => PyVal.pynone
  | some s => PyVal.str s

/-- The `next_episode_to_air` sub-object of a TMDB show payload. -/
structure NextEp where
  air_date : Option String
  deriving DecidableEq, Repr

/-- A season stub from the `seasons` array of a TMDB show payload (only
`season_number` is read by `sync_show_from_tmdb`). -/
structure SeasonStub where
  season_number : Option Int
  deriving DecidableEq, Repr

/-- An episode object from a TMDB season payload.  `season_number` is absent
in the payload (`none`) and set by `sync_show_from_tmdb` on the copy it
passes to `upsert_episode`; `id` is the TMDB episode id. -/
structure EpisodeObj where
  season_number : Option Int
  episode_number : Option Int
  id : Option Nat
  name : Option String
  air_date : Option String
  overview : Option String
  runtime : Option Int
  deriving DecidableEq, Repr

/-- A TMDB season-details payload as used by `upsert_season` and the episode
loop. -/
structure SeasonDetails where
  season_number : Option Int
  name : Option String
  air_date : Option String
  episode_count : Option Int
  episodes : List EpisodeObj
  deriving DecidableEq, Repr

/-- A TMDB show-details payload as used by `upsert_show` and
`sync_show_from_tmdb`.  `id = none` models a payload without an `"id"` key —
in particular the empty dict `{}` that `tmdb_tv_details` returns after
catching a fetch error — so that `details["id"]` raises `KeyError`. -/
structure ShowDetails where
  id : Option Nat
  name : Option String
  original_name : Option String
  status : Option String
  overview : Option String
  poster_path : Option String
  first_air_date : Option String
  last_air_date : Option String
  next_episode_to_air : Option NextEp
  seasons : List SeasonStub
  deriving DecidableEq, Repr

/-- A row of the `shows` table.  `alerted_next_air_date` is not among the
columns `upsert_show` inserts or updates, so it is `none` on insert and
preserved on conflict. -/
structure DBShowRow where
  id : Nat
  tmdb_id : Nat
  name : String
  status : Option String
  next_air_date : PyVal
  overview : Option String
  poster_path : Option String
  first_air_date : Option String
  last_air_date : Option String
  alerted_next_air_date : Option String
  deriving DecidableEq, Repr

/-- A row of the `seasons` table. -/
structure DBSeasonRow where
  id : Nat
  show_id : Nat
  season_number : Option Int
  name : Option String
  air_date : Option String
  episode_count : Option Int
  deriving DecidableEq, Repr

/-- A row of the `episodes` table. -/
structure DBEpisodeRow where
  id : Nat
  show_id : Nat
  season_number : Option Int
  episode_number : Option Int
  tmdb_episode_id : Option Nat
  name : Option String
  air_date : Option String
  overview : Option String
  runtime : Option Int
  deriving DecidableEq, Repr

/-- The relational store: the three catalog tables plus the autoincrement
counters supplying fresh internal row ids. -/
structure DB where
  shows : List DBShowRow
  seasons : List DBSeasonRow
  episodes : List DBEpisodeRow
  nextShowId : Nat
  nextSeasonId : Nat
  nextEpisodeId : Nat
  deriving DecidableEq, Repr

/-- SQL equality on a nullable integer column: `NULL` compares equal to
nothing, so a unique constraint never conflicts on a `NULL` key and a
`WHERE col = ?` lookup with a `NULL` parameter matches no row. -/
def sqlEq : Option Int → Option Int → Bool
  | some a, some b => a == b
  | _, _ => false

/-- `details.get("name") or details.get("original_name") or "Unknown"`. -/
def showDisplayName (details : ShowDetails) : String :=
  if pyTruthy details.name then details.name.getD ""
  else if pyTruthy details.original_name then details.original_name.getD ""
  else "Unknown"

/-- The value bound to the `next_air_date` column by `upsert_show`. -/
def showNextAirDate (details : ShowDetails) : PyVal :=
  match details.next_episode_to_air with
  | some ne => pyvalOfOpt ne.air_date
  | none => PyVal.emptyDict

/-- Key-conflict predicate of the `shows` unique index on `tmdb_id`. -/
def showKey (tid : Nat) (r : DBShowRow) : Bool := r.tmdb_id == tid

/-- `ON CONFLICT(tmdb_id) DO UPDATE` field assignment of `upsert_show`. -/
def showUpd (details : ShowDetails) (r : DBShowRow) : DBShowRow :=
  { r with name := showDisplayName details, status := details.status,
           next_air_date := showNextAirDate details,
           overview := details.overview, poster_path := details.poster_path,
           first_air_date := details.first_air_date,
           last_air_date := details.last_air_date }

/-- The row inserted by `upsert_show` when no `tmdb_id` conflict exists. -/
def showInsertRow (db : DB) (details : ShowDetails) (tid : Nat) : DBShowRow :=
  { id := db.nextShowId, tmdb_id := tid,
    name := showDisplayName details, status := details.status,
    next_air_date := showNextAirDate details,
    overview := details.overview, poster_path := details.poster_path,
    first_air_date := details.first_air_date,
    last_air_date := details.last_air_date,
    alerted_next_air_date := none }

/-- The `ON CONFLICT ... DO UPDATE` statement of `upsert_show` applied to the
`shows` table. -/
def showUpdWhere (details : ShowDetails) (tid : Nat) (l : List DBShowRow) :
    List DBShowRow :=
  l.map (fun r => if showKey tid r then showUpd details r else r)

/-- `upsert_show(conn, details)`: `details["id"]` raises `KeyError` when the
key is missing (before any write); otherwise insert-or-update keyed on
`tmdb_id`, commit, and return the internal id found by
`SELECT id FROM shows WHERE tmdb_id = ?`. -/
def upsert_show (db : DB) (details : ShowDetails) : DB × Except PyError Nat :=
  match details.id with
  | none => (db, Except.error (PyError.keyError "id"))
  | some tid =>
      let shows1 :=
        if db.shows.any (showKey tid) then showUpdWhere details tid db.shows
        else db.shows ++ [showInsertRow db details tid]
      let db1 :=
        if db.shows.any (showKey tid) then { db with shows := shows1 }
        else { db with shows := shows1, nextShowId := db.nextShowId + 1 }
      match shows1.find? (showKey tid) with
      | some r => (db1, Except.ok r.id)
      | none => (db1, Except.error PyError.typeError)

/-- Key-conflict predicate of the `seasons` unique index on
`(show_id, season_number)`. -/
def seasonKey (show_id : Nat) (sn : Option Int) (r : DBSeasonRow) : Bool :=
  r.show_id == show_id && sqlEq r.season_number sn

/-- `ON CONFLICT(show_id, season_number) DO UPDATE` assignment of
`upsert_season`. -/
def seasonUpd (so : SeasonDetails) (r : DBSeasonRow) : DBSeasonRow :=
  { r with name := so.name, air_date := so.air_date,
           episode_count := so.episode_count }

/-- The row inserted by `upsert_season` when no key conflict exists. -/
def seasonInsertRow (db : DB) (show_id : Nat) (so : SeasonDetails) :
    DBSeasonRow :=
  { id := db.nextSeasonId, show_id := show_id,
    season_number := so.season_number, name := so.name,
    air_date := so.air_date, episode_count := so.episode_count }

/-- The `ON CONFLICT ... DO UPDATE` statement of `upsert_season` applied to
the `seasons` table. -/
def seasonUpdWhere (so : SeasonDetails) (show_id : Nat)
    (l : List DBSeasonRow) : List DBSeasonRow :=
  l.map (fun r => if seasonKey show_id so.season_number r then seasonUpd so r
                  else r)

/-- `upsert_season(conn, show_id, season_obj)`: insert-or-update keyed on
`(show_id, season_number)`, commit, then
`SELECT id ... WHERE show_id=? AND season_number=?` followed by
`cur.fetchone()[0]`, which raises `TypeError` when no row matches (as happens
when `season_number` is `NULL`). -/
def upsert_season (db : DB) (show_id : Nat) (so : SeasonDetails) :
    DB × Except PyError Nat :=
  let key := seasonKey show_id so.season_number
  let seasons1 :=
    if db.seasons.any key then seasonUpdWhere so show_id db.seasons
    else db.seasons ++ [seasonInsertRow db show_id so]
  let db1 :=
    if db.seasons.any key then { db with seasons := seasons1 }
    else { db with seasons := seasons1, nextSeasonId := db.nextSeasonId + 1 }
  match seasons1.find? key with
  | some r => (db1, Except.ok r.id)
  | none => (db1, Except.error PyError.typeError)

/-- Key-conflict predicate of the `episodes` unique index on
`(show_id, season_number, episode_number)`. -/
def episodeKey (show_id : Nat) (sn en : Option Int) (r : DBEpisodeRow) : Bool :=
  r.show_id == show_id && sqlEq r.season_number sn && sqlEq r.episode_number en

/-- `ON CONFLICT(show_id, season_number, episode_number) DO UPDATE` assignment
of `upsert_episode`; note that `tmdb_episode_id` is inserted but not updated
on conflict. -/
def episodeUpd (ep : EpisodeObj) (r : DBEpisodeRow) : DBEpisodeRow :=
  { r with name := ep.name, air_date := ep.air_date,
           overview := ep.overview, runtime := ep.runtime }

/-- The row inserted by `upsert_episode` when no key conflict exists. -/
def episodeInsertRow (db : DB) (show_id : Nat) (ep : EpisodeObj) :
    DBEpisodeRow :=
  { id := db.nextEpisodeId, show_id := show_id,
    season_number := ep.season_number,
    episode_number := ep.episode_number, tmdb_episode_id := ep.id,
    name := ep.name, air_date := ep.air_date, overview := ep.overview,
    runtime := ep.runtime }

/-- The `ON CONFLICT ... DO UPDATE` statement of `upsert_episode` applied to
the `episodes` table. -/
def episodeUpdWhere (ep : EpisodeObj) (show_id : Nat)
    (l : List DBEpisodeRow) : List DBEpisodeRow :=
  l.map (fun r =>
    if episodeKey show_id ep.season_number ep.episode_number r then
      episodeUpd ep r
    else r)

/-- `upsert_episode(conn, show_id, ep)`: insert-or-update keyed on
`(show_id, season_number, episode_number)`, commit, then select the internal
id; `fetchone()[0]` raises `TypeError` when no row matches. -/
def upsert_episode (db : DB) (show_id : Nat) (ep : EpisodeObj) :
    DB × Except PyError Nat :=
  let key := episodeKey show_id ep.season_number ep.episode_number
  let episodes1 :=
    if db.episodes.any key then episodeUpdWhere ep show_id db.episodes
    else db.episodes ++ [episodeInsertRow db show_id ep]
  let db1 :=
    if db.episodes.any key then { db with episodes := episodes1 }
    else { db with episodes := episodes1, nextEpisodeId := db.nextEpisodeId + 1 }
  match episodes1.find? key with
  | some r => (db1, Except.ok r.id)
  | none => (db1, Except.error PyError.typeError)

/-- The external TMDB capability as seen by the sync code:
`tmdb_tv_details` catches its own exceptions and returns `{}` (modelled by a
`ShowDetails` with `id = none`), while `tmdb_season_details` calls
`raise_for_status()` with no handler, so its failures surface. -/
structure Fetcher where
  tv_details : Nat → ShowDetails
  season_details : Nat → Int → Except PyError SeasonDetails

/-- The inner `for ep in season_full.get("episodes", [])` loop of
`sync_show_from_tmdb`: each episode is copied, given the enclosing season
number, and upserted; there is no try/except, so the first failure aborts the
loop (already-committed upserts survive). -/
def sync_episodes (show_id : Nat) (season_num : Int) :
    List EpisodeObj → DB → DB × Except PyError Unit
  | [], db => (db, Except.ok ())
  | ep :: rest, db =>
      match upsert_episode db show_id { ep with season_number := some season_num } with
      | (db1, Except.error e) => (db1, Except.error e)
      | (db1, Except.ok _) => sync_episodes show_id season_num rest db1

/-- The `for s in details.get("seasons", [])` loop of `sync_show_from_tmdb`:
stubs without a season number are skipped; a season-details fetch failure or
upsert failure propagates (there is no per-season try/except), aborting the
remaining seasons of this show. -/
def sync_seasons (f : Fetcher) (tmdb_id : Nat) (show_id : Nat) :
    List SeasonStub → DB → DB × Except PyError Unit
  | [], db => (db, Except.ok ())
  | stub :: rest, db =>
      match stub.season_number with
      | none => sync_seasons f tmdb_id show_id rest db
      | some n =>
          match f.season_details tmdb_id n with
          | Except.error e => (db, Except.error e)
          | Except.ok sf =>
              match upsert_season db show_id sf with
              | (db1, Except.error e) => (db1, Except.error e)
              | (db1, Except.ok _) =>
                  match sync_episodes show_id n sf.episodes db1 with
                  | (db2, Except.error e) => (db2, Except.error e)
                  | (db2, Except.ok _) => sync_seasons f tmdb_id show_id rest db2

/-- `sync_show_from_tmdb(conn, tmdb_id, api_key)`: fetch details, upsert the
show, then sync every season; any escaping exception propagates to the
caller together with whatever was already committed. -/
def sync_show_from_tmdb (f : Fetcher) (tmdb_id : Nat) (db : DB) :
    DB × Except PyError Nat :=
  let details := f.tv_details tmdb_id
  match upsert_show db details with
  | (db1, Except.error e) => (db1, Except.error e)
  | (db1, Except.ok show_id) =>
      match sync_seasons f tmdb_id show_id details.seasons db1 with
      | (db2, Except.error e) => (db2, Except.error e)
      | (db2, Except.ok _) => (db2, Except.ok show_id)

end PyBingeBuddy

namespace Tasks

/-- `all_tmdb_ids_and_names`: the shows enumerated by the batch (snapshot
taken before syncing); `tmdb_id` is `NOT NULL`-filtered in SQL and modelled
as always present. -/
def all_tmdb_ids (db : PyBingeBuddy.DB) : List Nat :=
  db.shows.map (fun r => r.tmdb_id)

/-- The per-show loop of `sync_all_shows` over an explicit id list: each
`sync_show_from_tmdb` call is wrapped in try/except, so a failure is logged
and the loop continues with the next show, keeping whatever the failed call
had already committed. -/
def sync_list (f : PyBingeBuddy.Fetcher) (ids : List Nat)
    (db : PyBingeBuddy.DB) : PyBingeBuddy.DB :=
  ids.foldl (fun db tid => (PyBingeBuddy.sync_show_from_tmdb f tid db).1) db

/-- `sync_all_shows(conn, api_key)`. -/
def sync_all_shows (f : PyBingeBuddy.Fetcher) (db : PyBingeBuddy.DB) :
    PyBingeBuddy.DB :=
  sync_list f (all_tmdb_ids db) db

/-- An `episodes` row as read by `upcoming_for_user` (the query only touches
these columns; `season_number` and `episode_number` are cast to `int` by the
caller and modelled as integers). -/
structure QEpisode where
  id : Nat
  show_id : Nat
  season_number : Int
  episode_number : Int
  name : Option String
  air_date : Option String
  deriving DecidableEq, Repr

/-- A `shows` row as read by `upcoming_for_user`. -/
structure QShow where
  id : Nat
  name : String
  deriving DecidableEq, Repr

/-- A `user_shows` tracking link. -/
structure QUserShow where
  user_id : Nat
  show_id : Nat
  deriving DecidableEq, Repr

/-- A `watches` row as read by `upcoming_for_user` (only the join columns). -/
structure QWatch where
  user_id : Nat
  episode_id : Nat
  deriving DecidableEq, Repr

/-- The tables visible to `upcoming_for_user`. -/
structure QDB where
  shows : List QShow
  episodes : List QEpisode
  user_shows : List QUserShow
  watches : List QWatch
  deriving DecidableEq, Repr

/-- The `ORDER BY e.air_date, s.name, e.season_number, e.episode_number` sort
key of an output row.  Air dates are ISO-8601 text; SQLite's `date()` on such
text is the identity and its binary TEXT collation is the lexicographic
order on characters, which is the `String` linear order used here. -/
def rowKey (t : Item) : Lex (String × Lex (String × Lex (Int × Int))) :=
  toLex (t.2.2.2.2, toLex (t.1, toLex (t.2.1, t.2.2.1)))

/-- Comparison of output rows by `rowKey`. -/
def rowLe (a b : Item) : Prop := rowKey a ≤ rowKey b

instance : DecidableRel rowLe := fun a b =>
  inferInstanceAs (Decidable (rowKey a ≤ rowKey b))

instance : IsTotal Item rowLe := ⟨fun a b => le_total (rowKey a) (rowKey b)⟩

instance : IsTrans Item rowLe := ⟨fun _ _ _ hab hbc => le_trans hab hbc⟩

/-- `upcoming_for_user(conn, user_id, start_date, end_date)`: inner joins of
`episodes` with `shows` (on the show id) and with this user's `user_shows`
links, an anti-join against this user's `watches`
(`LEFT JOIN ... WHERE w.episode_id IS NULL`), a non-null air date restricted
to the inclusive `[start_date, end_date]` range, projected to
`(show_name, season_number, episode_number, COALESCE(name,''), air_date)` and
sorted by `ORDER BY e.air_date, s.name, e.season_number, e.episode_number`. -/
def upcoming_for_user (db : QDB) (user_id : Nat)
    (start_date end_date : String) : List Item :=
  let joined :=
    db.episodes.flatMap (fun e =>
      (db.shows.filter (fun s => s.id == e.show_id)).flatMap (fun s =>
        (db.user_shows.filter
            (fun us => us.show_id == e.show_id && us.user_id == user_id)).map
          (fun _ => (e, s))))
  let filtered :=
    joined.filter (fun p =>
      (db.watches.filter
          (fun w => w.user_id == user_id && w.episode_id == p.1.id)).isEmpty
        && (match p.1.air_date with
            | some a => decide (start_date ≤ a) && decide (a ≤ end_date)
            | none => false))
  let projected :=
    filtered.map (fun p =>
      (p.2.name, p.1.season_number, p.1.episode_number,
       p.1.name.getD "", p.1.air_date.getD ""))
  List.insertionSort rowLe projected

end Tasks

namespace PyBingeBuddy

/-- An unchanged fetched date is a complete no-op for the show. -/
theorem check_and_alert_step_no_change (cfg : AlertCfg) (env : ChannelEnv)
    (d : Fetched) (s : ShowRow) (h : d.next_air_date = s.next_air_date) :
    check_and_alert_step cfg env d s = ⟨s, false, none, false⟩ := by
  simp [check_and_alert_step, h]

/-- When the fetched date differs from the stored one, is truthy, and differs
from the watermark, the dispatch block is entered; the date and status fields
are committed in every case, and the watermark advances exactly when no SMS
exception escapes. -/
theorem check_and_alert_step_attempt (cfg : AlertCfg) (env : ChannelEnv)
    (d : Fetched) (s : ShowRow)
    (h1 : d.next_air_date ≠ s.next_air_date)
    (h2 : pyTruthy d.next_air_date = true)
    (h3 : d.next_air_date ≠ s.alerted_next_air_date) :
    (check_and_alert_step cfg env d s).attempted = true ∧
    (check_and_alert_step cfg env d s).row.next_air_date = d.next_air_date ∧
    (check_and_alert_step cfg env d s).row.status = d.status ∧
    ((check_and_alert_step cfg env d s).row.alerted_next_air_date = d.next_air_date ∨
     (check_and_alert_step cfg env d s).row.alerted_next_air_date
        = s.alerted_next_air_date) ∧
    ((check_and_alert_step cfg env d s).raised = none →
      (check_and_alert_step cfg env d s).row.alerted_next_air_date
        = d.next_air_date) ∧
    ((check_and_alert_step cfg env d s).raised ≠ none →
      (check_and_alert_step cfg env d s).row.alerted_next_air_date
        = s.alerted_next_air_date) := by
  cases hsms : sms_sends_error cfg env <;>
    simp [check_and_alert_step, h1, h2, h3, hsms]

/-- Claim C2: a transition to a null next-air-date sends no notification on
any channel, raises nothing, leaves the watermark unchanged (while the null
date itself is persisted), and a later truthy re-announced date that differs
from the watermark still enters the dispatch block. -/
theorem null_clear_no_alert_no_watermark (cfg : AlertCfg) (env : ChannelEnv)
    (d : Fetched) (s : ShowRow) (x : String)
    (hd : d.next_air_date = none) (hs : s.next_air_date = some x) :
    (check_and_alert_step cfg env d s).attempted = false ∧
    (check_and_alert_step cfg env d s).raised = none ∧
    (check_and_alert_step cfg env d s).emailed = false ∧
    (check_and_alert_step cfg env d s).row.alerted_next_air_date
      = s.alerted_next_air_date ∧
    (check_and_alert_step cfg env d s).row.next_air_date = none ∧
    (∀ (env2 : ChannelEnv) (d2 : Fetched),
      pyTruthy d2.next_air_date = true →
      d2.next_air_date ≠ s.alerted_next_air_date →
      (check_and_alert_step cfg env2 d2
        (check_and_alert_step cfg env d s).row).attempted = true) := by
  have hrow : (check_and_alert_step cfg env d s).attempted = false ∧
      (check_and_alert_step cfg env d s).raised = none ∧
      (check_and_alert_step cfg env d s).emailed = false ∧
      (check_and_alert_step cfg env d s).row.alerted_next_air_date
        = s.alerted_next_air_date ∧
      (check_and_alert_step cfg env d s).row.next_air_date = none := by
    simp [check_and_alert_step, hd, hs, pyTruthy]
  refine ⟨hrow.1, hrow.2.1, hrow.2.2.1, hrow.2.2.2.1, hrow.2.2.2.2, ?_⟩
  intro env2 d2 h2 h3
  have hd2 : d2.next_air_date ≠ none := by
    intro hcon
    rw [hcon] at h2
    simp [pyTruthy] at h2
  exact (check_and_alert_step_attempt cfg env2 d2 _
    (by rw [hrow.2.2.2.2]; exact hd2) h2
    (by rw [hrow.2.2.2.1]; exact h3)).1

/-- Concrete alert configuration used in witnesses/counterexamples. -/
def cfgW : AlertCfg :=
  { email_to := some "user@example.com", sms_to := some "5551234567",
    sms_carrier := some "att", email_enabled := true, sms_enabled := false,
    sms_via_email_enabled := false }

/-- Concrete channel environment with all deliveries succeeding. -/
def envW : ChannelEnv :=
  { email := { smtp_host := some "smtp.example.com", smtp_user := some "bot",
               smtp_pass := some "pw", deliverOk := true },
    smsOk1 := true, smsOk2 := true }

def rowC2 : ShowRow :=
  { name := "Show A", next_air_date := some "2024-03-01",
    alerted_next_air_date := some "2024-03-01",
    status := some "Returning Series", first_air_date := some "2020-01-01",
    last_air_date := some "2024-02-23" }

def fetchC2 : Fetched :=
  { next_air_date := none, status := some "Ended",
    first_air_date := some "2020-01-01", last_air_date := some "2024-02-23" }

theorem null_clear_no_alert_no_watermark_witness :
    fetchC2.next_air_date = none ∧ rowC2.next_air_date = some "2024-03-01" ∧
    (check_and_alert_step cfgW envW fetchC2 rowC2).attempted = false ∧
    (check_and_alert_step cfgW envW fetchC2 rowC2).row.alerted_next_air_date
      = rowC2.alerted_next_air_date :=
  ⟨rfl, rfl,
   (null_clear_no_alert_no_watermark cfgW envW fetchC2 rowC2 "2024-03-01"
     rfl rfl).1,
   (null_clear_no_alert_no_watermark cfgW envW fetchC2 rowC2 "2024-03-01"
     rfl rfl).2.2.2.1⟩

end PyBingeBuddy

/-- Claim C9: the alert-window predicate holds exactly when the local instant
(UTC plus the fixed Denver offset) is a Sunday with time-of-day in the
inclusive range 13:00:00–23:59:59; concretely, under the MST offset (-7h) it
is true at Sunday 14:00 local and false at Monday 14:00 and Sunday 08:00
local. -/
theorem is_alert_window_denver_spec :
    (∀ offset utc : Int,
      Tasks.is_alert_window_denver offset utc = true ↔
        (Tasks.localWeekday (utc + offset) = 6 ∧
         46800000000 ≤ Tasks.localTimeOfDay (utc + offset) ∧
         Tasks.localTimeOfDay (utc + offset) ≤ 86399000000)) ∧
    Tasks.is_alert_window_denver (-25200000000) 334800000000 = true ∧
    Tasks.is_alert_window_denver (-25200000000) 421200000000 = false ∧
    Tasks.is_alert_window_denver (-25200000000) 313200000000 = false := by
  refine ⟨fun offset utc => ?_, by decide, by decide, by decide⟩
  by_cases h : Tasks.localWeekday (utc + offset) = 6 <;>
    simp [Tasks.is_alert_window_denver, h, and_assoc]

namespace PyBingeBuddy

def rowC3 : ShowRow :=
  { name := "Show A", next_air_date := some "2024-03-01",
    alerted_next_air_date := some "2024-03-01",
    status := some "Returning Series", first_air_date := some "2020-01-01",
    last_air_date := some "2024-02-23" }

def fetchC3 : Fetched :=
  { next_air_date := some "2024-03-08", status := some "Returning Series",
    first_air_date := some "2020-01-01", last_air_date := some "2024-02-23" }

/-- Alert config with the SMS-via-carrier channel enabled. -/
def cfgC3 : AlertCfg :=
  { email_to := some "user@example.com", sms_to := some "5551234567",
    sms_carrier := some "att", email_enabled := true, sms_enabled := true,
    sms_via_email_enabled := false }

/-- Channel environment in which SMTP delivery of the SMS gateway message
fails (raises) while email succeeds. -/
def envC3 : ChannelEnv :=
  { email := { smtp_host := some "smtp.example.com", smtp_user := some "bot",
               smtp_pass := some "pw", deliverOk := true },
    smsOk1 := false, smsOk2 := true }

/-- Counterexample to claim C3 as stated: a dispatch attempt is made for the
new date 2024-03-08 (and the email channel even succeeds), but because the
`send_sms_via_email` call raises, the watermark is left at 2024-03-01 rather
than being updated "regardless of whether each channel's delivery succeeded
or failed". -/
theorem sms_failure_blocks_watermark_update :
    (check_and_alert_step cfgC3 envC3 fetchC3 rowC3).attempted = true ∧
    (check_and_alert_step cfgC3 envC3 fetchC3 rowC3).emailed = true ∧
    (check_and_alert_step cfgC3 envC3 fetchC3 rowC3).raised
      = some PyError.smtpError ∧
    (check_and_alert_step cfgC3 envC3 fetchC3 rowC3).row.alerted_next_air_date
      = some "2024-03-01" := by
  decide

/-- Claim C3 (amended): after a dispatch attempt the watermark is updated to
the new date exactly when no SMS-via-email exception escapes; an escaping SMS
exception leaves it unchanged, and the email channel's success or failure
never influences the committed row. -/
theorem watermark_advances_iff_sms_channel_ok (cfg : AlertCfg)
    (env : ChannelEnv) (d : Fetched) (s : ShowRow)
    (h1 : d.next_air_date ≠ s.next_air_date)
    (h2 : pyTruthy d.next_air_date = true)
    (h3 : d.next_air_date ≠ s.alerted_next_air_date) :
    (check_and_alert_step cfg env d s).attempted = true ∧
    ((check_and_alert_step cfg env d s).raised = none →
      (check_and_alert_step cfg env d s).row.alerted_next_air_date
        = d.next_air_date) ∧
    ((check_and_alert_step cfg env d s).raised ≠ none →
      (check_and_alert_step cfg env d s).row.alerted_next_air_date
        = s.alerted_next_air_date) ∧
    (∀ b : Bool,
      (check_and_alert_step cfg
        { env with email := { env.email with deliverOk := b } } d s).row
        = (check_and_alert_step cfg env d s).row) := by
  obtain ⟨ha, _, _, _, hn, hr⟩ := check_and_alert_step_attempt cfg env d s h1 h2 h3
  refine ⟨ha, hn, hr, fun b => ?_⟩
  have hsms : ∀ e2 : ChannelEnv, e2.smsOk1 = env.smsOk1 → e2.smsOk2 = env.smsOk2 →
      sms_sends_error cfg e2 = sms_sends_error cfg env := by
    intro e2 hx hy
    simp [sms_sends_error, hx, hy]
  cases hc : sms_sends_error cfg env with
  | none =>
      simp [check_and_alert_step, h1, h2, h3, hc,
            hsms { env with email := { env.email with deliverOk := b } } rfl rfl]
  | some e =>
      simp [check_and_alert_step, h1, h2, h3, hc,
            hsms { env with email := { env.email with deliverOk := b } } rfl rfl]

theorem watermark_advances_iff_sms_channel_ok_witness :
    fetchC3.next_air_date ≠ rowC3.next_air_date ∧
    pyTruthy fetchC3.next_air_date = true ∧
    fetchC3.next_air_date ≠ rowC3.alerted_next_air_date ∧
    (check_and_alert_step cfgC3 envC3 fetchC3 rowC3).attempted = true :=
  ⟨by decide, by decide, by decide,
   (watermark_advances_iff_sms_channel_ok cfgC3 envC3 fetchC3 rowC3
     (by decide) (by decide) (by decide)).1⟩

/-- A changed date (to anything, null included) always commits the four date
and status fields in `check_and_alert_updates`, in every alert branch. -/
theorem check_and_alert_step_persists_change (cfg : AlertCfg)
    (env : ChannelEnv) (d : Fetched) (s : ShowRow)
    (h : d.next_air_date ≠ s.next_air_date) :
    (check_and_alert_step cfg env d s).row.next_air_date = d.next_air_date ∧
    (check_and_alert_step cfg env d s).row.status = d.status ∧
    (check_and_alert_step cfg env d s).row.first_air_date = d.first_air_date ∧
    (check_and_alert_step cfg env d s).row.last_air_date = d.last_air_date := by
  by_cases hg2 : d.next_air_date = s.alerted_next_air_date
  · have h2 : s.alerted_next_air_date ≠ s.next_air_date := by
      rw [← hg2]; exact h
    by_cases hg : pyTruthy d.next_air_date = true <;>
      cases hsms : sms_sends_error cfg env <;>
        simp [check_and_alert_step, h, hg, hg2, h2, hsms]
  · by_cases hg : pyTruthy d.next_air_date = true <;>
      cases hsms : sms_sends_error cfg env <;>
        simp [check_and_alert_step, h, hg, hg2, hsms]

def rowC4 : ShowRow :=
  { name := "Show B", next_air_date := some "2024-05-01",
    alerted_next_air_date := none, status := some "Returning Series",
    first_air_date := some "2021-01-01", last_air_date := some "2024-04-24" }

def fetchC4 : Fetched :=
  { next_air_date := none, status := some "Ended",
    first_air_date := some "2021-01-01", last_air_date := some "2024-04-24" }

/-- Counterexample to claim C4 as stated: in `sync_show_updates` a fetched
next-air-date that differs from the stored one by becoming null is not
persisted at all — the row (including its `status`, which that function
never writes) is returned unchanged. -/
theorem sync_show_updates_drops_null_change :
    fetchC4.next_air_date ≠ rowC4.next_air_date ∧
    fetchC4.status ≠ rowC4.status ∧
    sync_show_updates_step fetchC4 rowC4 = (rowC4, false) := by
  decide

/-- Claim C4 (amended): in `check_and_alert_updates` any differing fetched
next-air-date (null included) is persisted immediately together with the
status fields, independently of the alert outcome; in `sync_show_updates`
only a truthy differing date is persisted, and only the `next_air_date`
column (never `status`). -/
theorem changed_date_persistence (cfg : AlertCfg) (env : ChannelEnv)
    (d : Fetched) (s : ShowRow) (h : d.next_air_date ≠ s.next_air_date) :
    ((check_and_alert_step cfg env d s).row.next_air_date = d.next_air_date ∧
     (check_and_alert_step cfg env d s).row.status = d.status ∧
     (check_and_alert_step cfg env d s).row.first_air_date = d.first_air_date ∧
     (check_and_alert_step cfg env d s).row.last_air_date = d.last_air_date) ∧
    (∀ (d2 : Fetched) (s2 : ShowRow),
      pyTruthy d2.next_air_date = true → d2.next_air_date ≠ s2.next_air_date →
      (sync_show_updates_step d2 s2).1.next_air_date = d2.next_air_date ∧
      (sync_show_updates_step d2 s2).1.status = s2.status) := by
  refine ⟨check_and_alert_step_persists_change cfg env d s h, ?_⟩
  intro d2 s2 h1 h2
  simp [sync_show_updates_step, h1, h2]

theorem changed_date_persistence_witness :
    fetchC4.next_air_date ≠ rowC4.next_air_date ∧
    (check_and_alert_step cfgW envW fetchC4 rowC4).row.status = fetchC4.status :=
  ⟨by decide,
   (changed_date_persistence cfgW envW fetchC4 rowC4 (by decide)).1.2.1⟩

end PyBingeBuddy

/-- Counterexample to claim C6 as stated: `send_sms_via_email` raises
`ValueError` for a carrier key outside its own gateway table ("googlefi" is
resolvable by the tasks-file table but not by this one), rather than
skipping the channel as a no-op. -/
theorem send_sms_unsupported_carrier_raises :
    PyBingeBuddy.send_sms_via_email true "5551234567" "googlefi"
      = Except.error (PyError.valueError "Unsupported carrier") := rfl

namespace PyBingeBuddy

/-- Claim C6 (amended): a carrier key not present in the respective gateway
table makes both address resolvers (`_sms_email_address` in the tasks file
and `sms_via_email_address` in the app) yield no address, and
`send_alert_bundle` then skips the SMS channel as a no-op; but
`send_sms_via_email` instead raises `ValueError` for a carrier outside its
table. -/
theorem unknown_carrier_yields_no_address_and_skip
    (sms_to carrier : Option String)
    (htasks : Tasks.CARRIER_GATEWAYS.lookup
        (String.mk ((carrier.getD "").toList.map Char.toLower)) = none) :
    Tasks._sms_email_address sms_to carrier = none ∧
    (∀ (ok1 ok2 : Bool) (email : String) (items : List Tasks.Item),
      (Tasks.send_alert_bundle
        { alert_sms_to := sms_to, alert_sms_carrier := carrier,
          smsSendOk := ok1, emailSendOk := ok2 } email items).smsAttempted
        = false) ∧
    (∀ phone c : String,
      CARRIER_GATEWAYS.lookup
          (String.mk ((c.toList.map Char.toLower).filter (fun ch => ch ≠ ' ')))
        = none →
      sms_via_email_address phone c = none) ∧
    (∀ (smtpOk : Bool) (phone c : String),
      CARRIER_GATEWAYS.lookup c = none →
      send_sms_via_email smtpOk phone c
        = Except.error (PyError.valueError "Unsupported carrier")) := by
  have haddr : Tasks._sms_email_address sms_to carrier = none := by
    have htasks2 := htasks
    simp only [String.toList] at htasks2
    simp [Tasks._sms_email_address, htasks2]
  refine ⟨haddr, ?_, ?_, ?_⟩
  · intro ok1 ok2 email items
    by_cases hi : items.isEmpty <;> simp [Tasks.send_alert_bundle, hi, haddr]
  · intro phone c hc
    simp only [ne_eq, decide_not, String.toList] at hc
    simp [sms_via_email_address, hc]
  · intro smtpOk phone c hc
    simp only [CARRIER_GATEWAYS] at hc
    simp [send_sms_via_email, hc]

theorem unknown_carrier_yields_no_address_and_skip_witness :
    Tasks.CARRIER_GATEWAYS.lookup
        (String.mk ((((some "Boost" : Option String).getD "").toList.map
          Char.toLower))) = none ∧
    Tasks._sms_email_address (some "5551234567") (some "Boost") = none :=
  ⟨by decide,
   (unknown_carrier_yields_no_address_and_skip (some "5551234567")
     (some "Boost") (by decide)).1⟩

def cfgC7 : AlertCfg :=
  { email_to := some "user@example.com", sms_to := some "5551234567",
    sms_carrier := some "verizon", email_enabled := true, sms_enabled := true,
    sms_via_email_enabled := false }

/-- Channel environment whose SMS SMTP session raises. -/
def envFailC7 : ChannelEnv :=
  { email := { smtp_host := some "smtp.example.com", smtp_user := some "bot",
               smtp_pass := some "pw", deliverOk := true },
    smsOk1 := false, smsOk2 := true }

/-- Channel environment with all deliveries succeeding. -/
def envOkC7 : ChannelEnv :=
  { email := { smtp_host := some "smtp.example.com", smtp_user := some "bot",
               smtp_pass := some "pw", deliverOk := true },
    smsOk1 := true, smsOk2 := true }

def rowC7A : ShowRow :=
  { name := "Show A", next_air_date := some "2024-03-01",
    alerted_next_air_date := some "2024-03-01",
    status := some "Returning Series", first_air_date := some "2020-01-01",
    last_air_date := some "2024-02-23" }

def fetchC7A : Fetched :=
  { next_air_date := some "2024-03-08", status := some "Returning Series",
    first_air_date := some "2020-01-01", last_air_date := some "2024-02-23" }

def rowC7B : ShowRow :=
  { name := "Show B", next_air_date := some "2024-04-01",
    alerted_next_air_date := none, status := some "Returning Series",
    first_air_date := some "2021-01-01", last_air_date := some "2024-03-25" }

def fetchC7B : Fetched :=
  { next_air_date := some "2024-04-08", status := some "Returning Series",
    first_air_date := some "2021-01-01", last_air_date := some "2024-03-25" }

/-- Show A's row after its aborted processing: dates committed, watermark
untouched. -/
def rowC7Aafter : ShowRow :=
  { name := "Show A", next_air_date := some "2024-03-08",
    alerted_next_air_date := some "2024-03-01",
    status := some "Returning Series", first_air_date := some "2020-01-01",
    last_air_date := some "2024-02-23" }

/-- Counterexample to claim C7 as stated: in `check_and_alert_updates` an
SMS-via-email delivery failure on Show A is not caught — it aborts the run,
so Show B (which would have alerted, as the first conjunct shows) is left
completely unprocessed. -/
theorem sms_failure_aborts_remaining_shows :
    (check_and_alert_step cfgC7 envOkC7 fetchC7B rowC7B).attempted = true ∧
    check_and_alert_updates cfgC7
        [(envFailC7, fetchC7A, rowC7A), (envOkC7, fetchC7B, rowC7B)]
      = ([rowC7Aafter, rowC7B], true) := by
  decide

end PyBingeBuddy

/-- Claim C7 (amended): in `send_alert_bundle` each configured channel is
attempted whatever the other channel's outcome (the outcome flags are part of
the quantified environment), and the per-user loop of `main()` processes
every user even when some user's query raises; in `check_and_alert_updates`,
by contrast, an SMS-via-email failure propagates and aborts the remaining
shows. -/
theorem channel_and_user_failure_isolation (env : Tasks.BundleEnv)
    (email : String) (items : List Tasks.Item)
    (hitems : items ≠ []) (hemail : email ≠ "")
    (haddr : (Tasks._sms_email_address env.alert_sms_to
        env.alert_sms_carrier).isSome = true) :
    ((Tasks.send_alert_bundle env email items).smsAttempted = true ∧
     (Tasks.send_alert_bundle env email items).emailAttempted = true) ∧
    (∀ (users : List (Nat × String))
       (itemsOf : Nat → Except PyError (List Tasks.Item)),
      (Tasks.alert_all_users env users itemsOf).map Prod.fst
        = users.map Prod.fst) := by
  constructor
  · obtain ⟨a, ha⟩ := Option.isSome_iff_exists.mp haddr
    have hi : items.isEmpty = false := by
      cases items with
      | nil => exact absurd rfl hitems
      | cons x xs => rfl
    constructor <;>
      simp [Tasks.send_alert_bundle, hi, ha, String.isEmpty_iff, hemail]
  · intro users itemsOf
    induction users with
    | nil => rfl
    | cons u rest ih =>
        cases hu : itemsOf u.1 <;>
          simp [Tasks.alert_all_users, hu] <;>
            simpa [Tasks.alert_all_users] using ih

theorem channel_and_user_failure_isolation_witness :
    ([("Show A", (1 : Int), (2 : Int), "Ep", "2024-03-08")] : List Tasks.Item)
        ≠ [] ∧
    ("user@example.com" : String) ≠ "" ∧
    (Tasks._sms_email_address (some "555-123-4567")
        (some "Verizon")).isSome = true ∧
    (Tasks.send_alert_bundle
      { alert_sms_to := some "555-123-4567", alert_sms_carrier := some "Verizon",
        smsSendOk := false, emailSendOk := true } "user@example.com"
      [("Show A", 1, 2, "Ep", "2024-03-08")]).emailAttempted = true :=
  ⟨by decide, by decide, by decide,
   (channel_and_user_failure_isolation
     { alert_sms_to := some "555-123-4567", alert_sms_carrier := some "Verizon",
       smsSendOk := false, emailSendOk := true } "user@example.com"
     [("Show A", 1, 2, "Ep", "2024-03-08")]
     (by decide) (by decide) (by decide)).1.2⟩

namespace PyBingeBuddy

/-- Claim C1: starting from a stored date d0 whose watermark is consistent
(null or d0), the fetch sequence d0, d1, d1, d2 over repeated runs of the
alert check produces exactly two dispatch attempts — one when the date
becomes d1 and one when it becomes d2 — whatever the channel outcomes of
each run. -/
theorem dedup_two_alerts_for_stationary_dates (cfg : AlertCfg)
    (e0 e1 e2 e3 : ChannelEnv) (f0 f1 f2 f3 : Fetched) (s : ShowRow)
    (d0 d1 d2 : String)
    (h0 : f0.next_air_date = some d0) (h1 : f1.next_air_date = some d1)
    (h2 : f2.next_air_date = some d1) (h3 : f3.next_air_date = some d2)
    (hs : s.next_air_date = some d0)
    (hw : s.alerted_next_air_date = none ∨ s.alerted_next_air_date = some d0)
    (h01 : d0 ≠ d1) (h12 : d1 ≠ d2) (h02 : d0 ≠ d2)
    (ht1 : d1 ≠ "") (ht2 : d2 ≠ "") :
    (check_and_alert_runs cfg [(e0, f0), (e1, f1), (e2, f2), (e3, f3)] s).2
      = 2 := by
  have hd1e : d1.isEmpty = false := by
    cases hde : d1.isEmpty
    · rfl
    · exact absurd ((String.isEmpty_iff d1).mp hde) ht1
  have hd2e : d2.isEmpty = false := by
    cases hde : d2.isEmpty
    · rfl
    · exact absurd ((String.isEmpty_iff d2).mp hde) ht2
  have step0eq := check_and_alert_step_no_change cfg e0 f0 s (by rw [h0, hs])
  have hne1 : f1.next_air_date ≠ s.next_air_date := by
    rw [h1, hs]; simp [Ne.symm h01]
  have ht1b : pyTruthy f1.next_air_date = true := by
    rw [h1]; simp [pyTruthy, hd1e]
  have hg1 : f1.next_air_date ≠ s.alerted_next_air_date := by
    rcases hw with hw | hw <;> rw [h1, hw] <;> simp [Ne.symm h01]
  obtain ⟨a1, n1, _, al1, _, _⟩ :=
    check_and_alert_step_attempt cfg e1 f1 s hne1 ht1b hg1
  have step2eq := check_and_alert_step_no_change cfg e2 f2
    (check_and_alert_step cfg e1 f1 s).row (by rw [h2, n1, h1])
  have hne4 : f3.next_air_date
      ≠ (check_and_alert_step cfg e1 f1 s).row.next_air_date := by
    rw [h3, n1, h1]; simp [Ne.symm h12]
  have ht2b : pyTruthy f3.next_air_date = true := by
    rw [h3]; simp [pyTruthy, hd2e]
  have hg4 : f3.next_air_date
      ≠ (check_and_alert_step cfg e1 f1 s).row.alerted_next_air_date := by
    rcases al1 with ha | ha
    · rw [h3, ha, h1]; simp [Ne.symm h12]
    · rcases hw with hw | hw <;> rw [h3, ha, hw] <;> simp [Ne.symm h02]
  obtain ⟨a4, _, _, _, _, _⟩ :=
    check_and_alert_step_attempt cfg e3 f3
      (check_and_alert_step cfg e1 f1 s).row hne4 ht2b hg4
  simp only [check_and_alert_runs, step0eq, step2eq]
  simp [a1, a4]

def rowC1 : ShowRow :=
  { name := "Show A", next_air_date := some "2024-03-01",
    alerted_next_air_date := some "2024-03-01",
    status := some "Returning Series", first_air_date := some "2020-01-01",
    last_air_date := some "2024-02-23" }

def fetchC1a : Fetched :=
  { next_air_date := some "2024-03-01", status := some "Returning Series",
    first_air_date := some "2020-01-01", last_air_date := some "2024-02-23" }

def fetchC1b : Fetched :=
  { next_air_date := some "2024-03-08", status := some "Returning Series",
    first_air_date := some "2020-01-01", last_air_date := some "2024-02-23" }

def fetchC1c : Fetched :=
  { next_air_date := some "2024-03-15", status := some "Returning Series",
    first_air_date := some "2020-01-01", last_air_date := some "2024-02-23" }

theorem dedup_two_alerts_for_stationary_dates_witness :
    ("2024-03-01" : String) ≠ "2024-03-08" ∧
    ("2024-03-08" : String) ≠ "2024-03-15" ∧
    (check_and_alert_runs cfgW
      [(envW, fetchC1a), (envW, fetchC1b), (envW, fetchC1b), (envW, fetchC1c)]
      rowC1).2 = 2 :=
  ⟨by decide, by decide,
   dedup_two_alerts_for_stationary_dates cfgW envW envW envW envW
     fetchC1a fetchC1b fetchC1b fetchC1c rowC1
     "2024-03-01" "2024-03-08" "2024-03-15"
     rfl rfl rfl rfl rfl (Or.inr rfl)
     (by decide) (by decide) (by decide) (by decide) (by decide)⟩

end PyBingeBuddy

namespace PyBingeBuddy

/-- The empty payload `{}` that `tmdb_tv_details` returns after swallowing a
fetch error. -/
def emptyShowDetails : ShowDetails :=
  { id := none, name := none, original_name := none, status := none,
    overview := none, poster_path := none, first_air_date := none,
    last_air_date := none, next_episode_to_air := none, seasons := [] }

def detailsC5 : ShowDetails :=
  { id := some 100, name := some "Show A", original_name := none,
    status := some "Returning Series", overview := none, poster_path := none,
    first_air_date := some "2020-01-01", last_air_date := none,
    next_episode_to_air := none,
    seasons := [{ season_number := some 1 }, { season_number := some 2 }] }

def seasonC5two : SeasonDetails :=
  { season_number := some 2, name := some "Season 2",
    air_date := some "2024-02-01", episode_count := some 1,
    episodes := [{ season_number := none, episode_number := some 1,
                   id := some 9001, name := some "E1",
                   air_date := some "2024-02-01", overview := none,
                   runtime := some 42 }] }

/-- Fetcher for which the details of show 100 are fine, season 1's fetch
raises, and season 2's fetch succeeds. -/
def fetcherC5 : Fetcher :=
  { tv_details := fun tid => if tid = 100 then detailsC5 else emptyShowDetails,
    season_details := fun tid n =>
      if tid == 100 && n == 2 then Except.ok seasonC5two
      else Except.error PyError.requestError }

def dbC5 : DB :=
  { shows := [{ id := 1, tmdb_id := 100, name := "Show A", status := none,
                next_air_date := PyVal.pynone, overview := none,
                poster_path := none, first_air_date := none,
                last_air_date := none, alerted_next_air_date := none }],
    seasons := [], episodes := [],
    nextShowId := 2, nextSeasonId := 1, nextEpisodeId := 1 }

/-- Counterexample to claim C5 as stated: season 1's fetch fails, and
although season 2's fetch would succeed, the batch leaves the seasons table
empty — the failure aborts the remaining seasons of the show instead of
being isolated per season. -/
theorem season_failure_aborts_remaining_seasons :
    fetcherC5.season_details 100 2 = Except.ok seasonC5two ∧
    fetcherC5.season_details 100 1 = Except.error PyError.requestError ∧
    (Tasks.sync_all_shows fetcherC5 dbC5).seasons = [] :=
  ⟨rfl, rfl, rfl⟩

/-- Claim C5 (amended): failure isolation exists at the per-show boundary
only — a show whose details fetch failed (empty payload, `KeyError` before
any write) leaves the store untouched and the batch continues with the
remaining shows exactly as if it were absent; within one show, however, a
failing season fetch aborts that show's remaining seasons (the result does
not depend on the remaining stubs). -/
theorem per_show_failure_isolation (f : Fetcher) (db : DB) (b : Nat)
    (ids : List Nat) (hb : (f.tv_details b).id = none) :
    Tasks.sync_list f (b :: ids) db = Tasks.sync_list f ids db ∧
    (∀ (tid sid : Nat) (n : Int) (rest : List SeasonStub) (e : PyError)
       (db2 : DB),
      f.season_details tid n = Except.error e →
      sync_seasons f tid sid ({ season_number := some n } :: rest) db2
        = (db2, Except.error e)) := by
  constructor
  · simp [Tasks.sync_list, sync_show_from_tmdb, upsert_show, hb]
  · intro tid sid n rest e db2 he
    simp [sync_seasons, he]

theorem per_show_failure_isolation_witness :
    (fetcherC5.tv_details 999).id = none ∧
    Tasks.sync_list fetcherC5 [999, 100] dbC5
      = Tasks.sync_list fetcherC5 [100] dbC5 :=
  ⟨by decide,
   (per_show_failure_isolation fetcherC5 dbC5 999 [100] (by decide)).1⟩

end PyBingeBuddy


namespace PyBingeBuddy

/-- `UPDATE ... WHERE key` touches only matching rows; if the update preserves
the key, the table matches the key afterwards iff it did before. -/
theorem any_updWhere {α : Type} (key : α → Bool) (u : α → α)
    (hk : ∀ r, key (u r) = key r) (l : List α) :
    (l.map (fun r => if key r then u r else r)).any key = l.any key := by
  induction l with
  | nil => rfl
  | cons x xs ih =>
      by_cases hx : key x = true <;> simp [hx, hk, ih]

/-- An `UPDATE ... WHERE key` over a table with no matching row is the
identity. -/
theorem updWhere_nomatch {α : Type} (key : α → Bool) (u : α → α) (l : List α)
    (h : ∀ r ∈ l, key r = false) :
    l.map (fun r => if key r then u r else r) = l := by
  induction l with
  | nil => rfl
  | cons x xs ih =>
      simp [h x (List.mem_cons_self x xs),
            ih fun r hr => h r (List.mem_cons_of_mem x hr)]

/-- Re-running a key-preserving, idempotent `UPDATE ... WHERE key` changes
nothing. -/
theorem updWhere_idem {α : Type} (key : α → Bool) (u : α → α)
    (hk : ∀ r, key (u r) = key r) (hu : ∀ r, key r = true → u (u r) = u r)
    (l : List α) :
    (l.map (fun r => if key r then u r else r)).map
        (fun r => if key r then u r else r)
      = l.map (fun r => if key r then u r else r) := by
  induction l with
  | nil => rfl
  | cons x xs ih =>
      by_cases hx : key x = true
      · simp [hx, hk, hu x hx, ih]
      · simp [hx, ih]

/-- The `SELECT ... WHERE key` lookup after a key-preserving update finds the
updated image of the row it would have found before. -/
theorem find?_updWhere {α : Type} (key : α → Bool) (u : α → α)
    (hk : ∀ r, key (u r) = key r) (l : List α) :
    (l.map (fun r => if key r then u r else r)).find? key
      = (l.find? key).map (fun r => if key r then u r else r) := by
  have hcomp : (key ∘ fun r => if key r then u r else r) = key := by
    funext r
    by_cases hr : key r = true <;> simp [Function.comp, hr, hk]
  rw [List.find?_map, hcomp]

theorem find?_some_of_any {α : Type} (key : α → Bool) (l : List α)
    (h : l.any key = true) : ∃ r, l.find? key = some r := by
  obtain ⟨x, hx, hpx⟩ := List.any_eq_true.mp h
  exact Option.isSome_iff_exists.mp (List.find?_isSome.mpr ⟨x, hx, hpx⟩)

theorem showUpdWhere_any (details : ShowDetails) (tid : Nat)
    (l : List DBShowRow) :
    (showUpdWhere details tid l).any (showKey tid) = l.any (showKey tid) :=
  any_updWhere (showKey tid) (showUpd details) (fun _ => rfl) l

theorem showUpdWhere_idem (details : ShowDetails) (tid : Nat)
    (l : List DBShowRow) :
    showUpdWhere details tid (showUpdWhere details tid l)
      = showUpdWhere details tid l :=
  updWhere_idem (showKey tid) (showUpd details) (fun _ => rfl)
    (fun _ _ => rfl) l

theorem showUpdWhere_find?_some (details : ShowDetails) (tid : Nat)
    (l : List DBShowRow) (r0 : DBShowRow)
    (h : l.find? (showKey tid) = some r0) :
    (showUpdWhere details tid l).find? (showKey tid)
      = some (showUpd details r0) := by
  unfold showUpdWhere
  rw [find?_updWhere (showKey tid) (showUpd details) (fun _ => rfl), h]
  simp [List.find?_some h]

/-- Conflict (update) characterization of `upsert_show`. -/
theorem upsert_show_conflict (db : DB) (details : ShowDetails) (tid : Nat)
    (hid : details.id = some tid) (hc : db.shows.any (showKey tid) = true) :
    ∃ r0, db.shows.find? (showKey tid) = some r0 ∧
      upsert_show db details
        = ({ db with shows := showUpdWhere details tid db.shows },
           Except.ok (showUpd details r0).id) := by
  obtain ⟨r0, hr0⟩ := find?_some_of_any (showKey tid) db.shows hc
  refine ⟨r0, hr0, ?_⟩
  simp [upsert_show, hid, hc, showUpdWhere_find?_some details tid db.shows r0 hr0]

theorem showInsertRow_key (db : DB) (details : ShowDetails) (tid : Nat) :
    showKey tid (showInsertRow db details tid) = true := by
  simp [showKey, showInsertRow]

/-- Insert characterization of `upsert_show`. -/
theorem upsert_show_insert (db : DB) (details : ShowDetails) (tid : Nat)
    (hid : details.id = some tid) (hc : db.shows.any (showKey tid) = false) :
    upsert_show db details
      = ({ db with
             shows := db.shows ++ [showInsertRow db details tid],
             nextShowId := db.nextShowId + 1 },
         Except.ok db.nextShowId) := by
  have hnone : db.shows.find? (showKey tid) = none :=
    List.find?_eq_none.mpr (List.any_eq_false.mp hc)
  simp [upsert_show, hid, hc, List.find?_append, hnone, List.find?_cons,
        showInsertRow, showKey]

/-- Running `upsert_show` twice with the same payload gives the same store
and the same internal id as running it once. -/
theorem upsert_show_idem (db : DB) (details : ShowDetails) :
    upsert_show (upsert_show db details).1 details = upsert_show db details := by
  cases hid : details.id with
  | none => simp [upsert_show, hid]
  | some tid =>
      by_cases hc : db.shows.any (showKey tid) = true
      · obtain ⟨r0, hr0, h1⟩ := upsert_show_conflict db details tid hid hc
        have hfst : (upsert_show db details).1
            = { db with shows := showUpdWhere details tid db.shows } := by
          rw [h1]
        have hc2 : ({ db with shows := showUpdWhere details tid db.shows }
            : DB).shows.any (showKey tid) = true := by
          show (showUpdWhere details tid db.shows).any (showKey tid) = true
          rw [showUpdWhere_any]
          exact hc
        obtain ⟨r1, hr1, h2⟩ := upsert_show_conflict _ details tid hid hc2
        have hr1eq : r1 = showUpd details r0 := by
          have h3 : (showUpdWhere details tid db.shows).find? (showKey tid)
              = some r1 := hr1
          rw [showUpdWhere_find?_some details tid db.shows r0 hr0] at h3
          exact (Option.some.inj h3).symm
        rw [hfst, h2, h1, hr1eq]
        simp [showUpdWhere_idem]
        rfl
      · have hcf : db.shows.any (showKey tid) = false := by
          cases h2 : db.shows.any (showKey tid)
          · rfl
          · exact absurd h2 hc
        have h1 := upsert_show_insert db details tid hid hcf
        have hfst : (upsert_show db details).1
            = { db with
                  shows := db.shows ++ [showInsertRow db details tid],
                  nextShowId := db.nextShowId + 1 } := by
          rw [h1]
        have hany2 : ({ db with
              shows := db.shows ++ [showInsertRow db details tid],
              nextShowId := db.nextShowId + 1 }
            : DB).shows.any (showKey tid) = true := by
          show (db.shows ++ [showInsertRow db details tid]).any (showKey tid)
            = true
          simp [List.any_append, showInsertRow_key]
        obtain ⟨r1, hr1, h2⟩ := upsert_show_conflict _ details tid hid hany2
        have hr1eq : r1 = showInsertRow db details tid := by
          have h3 : (db.shows ++ [showInsertRow db details tid]).find?
              (showKey tid) = some r1 := hr1
          rw [List.find?_append,
              List.find?_eq_none.mpr (List.any_eq_false.mp hcf),
              List.find?_cons_of_pos _ (showInsertRow_key db details tid),
              Option.none_or] at h3
          exact (Option.some.inj h3).symm
        have hmap : showUpdWhere details tid
            (db.shows ++ [showInsertRow db details tid])
            = db.shows ++ [showInsertRow db details tid] := by
          unfold showUpdWhere
          rw [List.map_append,
              updWhere_nomatch (showKey tid) (showUpd details) db.shows
                (fun r hr => by simpa using List.any_eq_false.mp hcf r hr)]
          simp [showInsertRow_key]
          rfl
        rw [hfst, h2, h1, hr1eq]
        refine Prod.ext ?_ ?_
        · simp [hmap]
        · rfl

end PyBingeBuddy

namespace PyBingeBuddy

theorem sqlEq_self (n : Int) : sqlEq (some n) (some n) = true := by
  simp [sqlEq]

theorem seasonUpdWhere_any (so : SeasonDetails) (sid : Nat)
    (l : List DBSeasonRow) :
    (seasonUpdWhere so sid l).any (seasonKey sid so.season_number)
      = l.any (seasonKey sid so.season_number) :=
  any_updWhere (seasonKey sid so.season_number) (seasonUpd so)
    (fun _ => rfl) l

theorem seasonUpdWhere_idem (so : SeasonDetails) (sid : Nat)
    (l : List DBSeasonRow) :
    seasonUpdWhere so sid (seasonUpdWhere so sid l) = seasonUpdWhere so sid l :=
  updWhere_idem (seasonKey sid so.season_number) (seasonUpd so)
    (fun _ => rfl) (fun _ _ => rfl) l

theorem seasonUpdWhere_find?_some (so : SeasonDetails) (sid : Nat)
    (l : List DBSeasonRow) (r0 : DBSeasonRow)
    (h : l.find? (seasonKey sid so.season_number) = some r0) :
    (seasonUpdWhere so sid l).find? (seasonKey sid so.season_number)
      = some (seasonUpd so r0) := by
  unfold seasonUpdWhere
  rw [find?_updWhere (seasonKey sid so.season_number) (seasonUpd so)
        (fun _ => rfl), h]
  simp [List.find?_some h]

/-- Conflict (update) characterization of `upsert_season`. -/
theorem upsert_season_conflict (db : DB) (sid : Nat) (so : SeasonDetails)
    (hc : db.seasons.any (seasonKey sid so.season_number) = true) :
    ∃ r0, db.seasons.find? (seasonKey sid so.season_number) = some r0 ∧
      upsert_season db sid so
        = ({ db with seasons := seasonUpdWhere so sid db.seasons },
           Except.ok (seasonUpd so r0).id) := by
  obtain ⟨r0, hr0⟩ :=
    find?_some_of_any (seasonKey sid so.season_number) db.seasons hc
  refine ⟨r0, hr0, ?_⟩
  simp [upsert_season, hc, seasonUpdWhere_find?_some so sid db.seasons r0 hr0]

theorem seasonInsertRow_key (db : DB) (sid : Nat) (so : SeasonDetails)
    (n : Int) (hn : so.season_number = some n) :
    seasonKey sid so.season_number (seasonInsertRow db sid so) = true := by
  simp [seasonKey, seasonInsertRow, hn, sqlEq]

/-- Insert characterization of `upsert_season` (for a non-null season
number; with a `NULL` key the inserted row can never be found again and
`fetchone()[0]` raises). -/
theorem upsert_season_insert (db : DB) (sid : Nat) (so : SeasonDetails)
    (n : Int) (hn : so.season_number = some n)
    (hc : db.seasons.any (seasonKey sid so.season_number) = false) :
    upsert_season db sid so
      = ({ db with
             seasons := db.seasons ++ [seasonInsertRow db sid so],
             nextSeasonId := db.nextSeasonId + 1 },
         Except.ok db.nextSeasonId) := by
  have hnone : db.seasons.find? (seasonKey sid so.season_number) = none :=
    List.find?_eq_none.mpr (List.any_eq_false.mp hc)
  have hfind : (db.seasons ++ [seasonInsertRow db sid so]).find?
      (seasonKey sid so.season_number) = some (seasonInsertRow db sid so) := by
    rw [List.find?_append, hnone,
        List.find?_cons_of_pos _ (seasonInsertRow_key db sid so n hn),
        Option.none_or]
  have hid2 : (seasonInsertRow db sid so).id = db.nextSeasonId := rfl
  simp [upsert_season, hc, hfind, hid2]

/-- Running `upsert_season` twice with the same payload (with a non-null
season number) gives the same store and id as running it once. -/
theorem upsert_season_idem (db : DB) (sid : Nat) (so : SeasonDetails)
    (hn : so.season_number.isSome = true) :
    upsert_season (upsert_season db sid so).1 sid so
      = upsert_season db sid so := by
  obtain ⟨n, hn2⟩ := Option.isSome_iff_exists.mp hn
  by_cases hc : db.seasons.any (seasonKey sid so.season_number) = true
  · obtain ⟨r0, hr0, h1⟩ := upsert_season_conflict db sid so hc
    have hfst : (upsert_season db sid so).1
        = { db with seasons := seasonUpdWhere so sid db.seasons } := by
      rw [h1]
    have hc2 : ({ db with seasons := seasonUpdWhere so sid db.seasons }
        : DB).seasons.any (seasonKey sid so.season_number) = true := by
      show (seasonUpdWhere so sid db.seasons).any
        (seasonKey sid so.season_number) = true
      rw [seasonUpdWhere_any]
      exact hc
    obtain ⟨r1, hr1, h2⟩ := upsert_season_conflict _ sid so hc2
    have hr1eq : r1 = seasonUpd so r0 := by
      have h3 : (seasonUpdWhere so sid db.seasons).find?
          (seasonKey sid so.season_number) = some r1 := hr1
      rw [seasonUpdWhere_find?_some so sid db.seasons r0 hr0] at h3
      exact (Option.some.inj h3).symm
    rw [hfst, h2, h1, hr1eq]
    simp [seasonUpdWhere_idem]
    rfl
  · have hcf : db.seasons.any (seasonKey sid so.season_number) = false := by
      cases h2 : db.seasons.any (seasonKey sid so.season_number)
      · rfl
      · exact absurd h2 hc
    have h1 := upsert_season_insert db sid so n hn2 hcf
    have hfst : (upsert_season db sid so).1
        = { db with
              seasons := db.seasons ++ [seasonInsertRow db sid so],
              nextSeasonId := db.nextSeasonId + 1 } := by
      rw [h1]
    have hany2 : ({ db with
          seasons := db.seasons ++ [seasonInsertRow db sid so],
          nextSeasonId := db.nextSeasonId + 1 }
        : DB).seasons.any (seasonKey sid so.season_number) = true := by
      show (db.seasons ++ [seasonInsertRow db sid so]).any
        (seasonKey sid so.season_number) = true
      simp [List.any_append, seasonInsertRow_key db sid so n hn2]
    obtain ⟨r1, hr1, h2⟩ := upsert_season_conflict _ sid so hany2
    have hr1eq : r1 = seasonInsertRow db sid so := by
      have h3 : (db.seasons ++ [seasonInsertRow db sid so]).find?
          (seasonKey sid so.season_number) = some r1 := hr1
      rw [List.find?_append,
          List.find?_eq_none.mpr (List.any_eq_false.mp hcf),
          List.find?_cons_of_pos _ (seasonInsertRow_key db sid so n hn2),
          Option.none_or] at h3
      exact (Option.some.inj h3).symm
    have hmap : seasonUpdWhere so sid (db.seasons ++ [seasonInsertRow db sid so])
        = db.seasons ++ [seasonInsertRow db sid so] := by
      unfold seasonUpdWhere
      rw [List.map_append,
          updWhere_nomatch (seasonKey sid so.season_number) (seasonUpd so)
            db.seasons
            (fun r hr => by simpa using List.any_eq_false.mp hcf r hr)]
      simp [seasonInsertRow_key db sid so n hn2]
      rfl
    rw [hfst, h2, h1, hr1eq]
    refine Prod.ext ?_ ?_
    · simp [hmap]
    · rfl

theorem episodeUpdWhere_any (ep : EpisodeObj) (sid : Nat)
    (l : List DBEpisodeRow) :
    (episodeUpdWhere ep sid l).any
        (episodeKey sid ep.season_number ep.episode_number)
      = l.any (episodeKey sid ep.season_number ep.episode_number) :=
  any_updWhere (episodeKey sid ep.season_number ep.episode_number)
    (episodeUpd ep) (fun _ => rfl) l

theorem episodeUpdWhere_idem (ep : EpisodeObj) (sid : Nat)
    (l : List DBEpisodeRow) :
    episodeUpdWhere ep sid (episodeUpdWhere ep sid l)
      = episodeUpdWhere ep sid l :=
  updWhere_idem (episodeKey sid ep.season_number ep.episode_number)
    (episodeUpd ep) (fun _ => rfl) (fun _ _ => rfl) l

theorem episodeUpdWhere_find?_some (ep : EpisodeObj) (sid : Nat)
    (l : List DBEpisodeRow) (r0 : DBEpisodeRow)
    (h : l.find? (episodeKey sid ep.season_number ep.episode_number)
      = some r0) :
    (episodeUpdWhere ep sid l).find?
        (episodeKey sid ep.season_number ep.episode_number)
      = some (episodeUpd ep r0) := by
  unfold episodeUpdWhere
  rw [find?_updWhere (episodeKey sid ep.season_number ep.episode_number)
        (episodeUpd ep) (fun _ => rfl), h]
  simp [List.find?_some h]

/-- Conflict (update) characterization of `upsert_episode`. -/
theorem upsert_episode_conflict (db : DB) (sid : Nat) (ep : EpisodeObj)
    (hc : db.episodes.any (episodeKey sid ep.season_number ep.episode_number)
      = true) :
    ∃ r0, db.episodes.find?
        (episodeKey sid ep.season_number ep.episode_number) = some r0 ∧
      upsert_episode db sid ep
        = ({ db with episodes := episodeUpdWhere ep sid db.episodes },
           Except.ok (episodeUpd ep r0).id) := by
  obtain ⟨r0, hr0⟩ := find?_some_of_any
    (episodeKey sid ep.season_number ep.episode_number) db.episodes hc
  refine ⟨r0, hr0, ?_⟩
  simp [upsert_episode, hc,
        episodeUpdWhere_find?_some ep sid db.episodes r0 hr0]

theorem episodeInsertRow_key (db : DB) (sid : Nat) (ep : EpisodeObj)
    (m k : Int) (hm : ep.season_number = some m)
    (hk : ep.episode_number = some k) :
    episodeKey sid ep.season_number ep.episode_number
      (episodeInsertRow db sid ep) = true := by
  simp [episodeKey, episodeInsertRow, hm, hk, sqlEq]

/-- Insert characterization of `upsert_episode` (for non-null key columns). -/
theorem upsert_episode_insert (db : DB) (sid : Nat) (ep : EpisodeObj)
    (m k : Int) (hm : ep.season_number = some m)
    (hk : ep.episode_number = some k)
    (hc : db.episodes.any (episodeKey sid ep.season_number ep.episode_number)
      = false) :
    upsert_episode db sid ep
      = ({ db with
             episodes := db.episodes ++ [episodeInsertRow db sid ep],
             nextEpisodeId := db.nextEpisodeId + 1 },
         Except.ok db.nextEpisodeId) := by
  have hnone : db.episodes.find?
      (episodeKey sid ep.season_number ep.episode_number) = none :=
    List.find?_eq_none.mpr (List.any_eq_false.mp hc)
  have hfind : (db.episodes ++ [episodeInsertRow db sid ep]).find?
      (episodeKey sid ep.season_number ep.episode_number)
      = some (episodeInsertRow db sid ep) := by
    rw [List.find?_append, hnone,
        List.find?_cons_of_pos _ (episodeInsertRow_key db sid ep m k hm hk),
        Option.none_or]
  have hid2 : (episodeInsertRow db sid ep).id = db.nextEpisodeId := rfl
  simp [upsert_episode, hc, hfind, hid2]

/-- Running `upsert_episode` twice with the same payload (with non-null key
columns) gives the same store and id as running it once. -/
theorem upsert_episode_idem (db : DB) (sid : Nat) (ep : EpisodeObj)
    (hm : ep.season_number.isSome = true)
    (hk : ep.episode_number.isSome = true) :
    upsert_episode (upsert_episode db sid ep).1 sid ep
      = upsert_episode db sid ep := by
  obtain ⟨m, hm2⟩ := Option.isSome_iff_exists.mp hm
  obtain ⟨k, hk2⟩ := Option.isSome_iff_exists.mp hk
  by_cases hc : db.episodes.any
      (episodeKey sid ep.season_number ep.episode_number) = true
  · obtain ⟨r0, hr0, h1⟩ := upsert_episode_conflict db sid ep hc
    have hfst : (upsert_episode db sid ep).1
        = { db with episodes := episodeUpdWhere ep sid db.episodes } := by
      rw [h1]
    have hc2 : ({ db with episodes := episodeUpdWhere ep sid db.episodes }
        : DB).episodes.any
          (episodeKey sid ep.season_number ep.episode_number) = true := by
      show (episodeUpdWhere ep sid db.episodes).any
        (episodeKey sid ep.season_number ep.episode_number) = true
      rw [episodeUpdWhere_any]
      exact hc
    obtain ⟨r1, hr1, h2⟩ := upsert_episode_conflict _ sid ep hc2
    have hr1eq : r1 = episodeUpd ep r0 := by
      have h3 : (episodeUpdWhere ep sid db.episodes).find?
          (episodeKey sid ep.season_number ep.episode_number) = some r1 := hr1
      rw [episodeUpdWhere_find?_some ep sid db.episodes r0 hr0] at h3
      exact (Option.some.inj h3).symm
    rw [hfst, h2, h1, hr1eq]
    simp [episodeUpdWhere_idem]
    rfl
  · have hcf : db.episodes.any
        (episodeKey sid ep.season_number ep.episode_number) = false := by
      cases h2 : db.episodes.any
          (episodeKey sid ep.season_number ep.episode_number)
      · rfl
      · exact absurd h2 hc
    have h1 := upsert_episode_insert db sid ep m k hm2 hk2 hcf
    have hfst : (upsert_episode db sid ep).1
        = { db with
              episodes := db.episodes ++ [episodeInsertRow db sid ep],
              nextEpisodeId := db.nextEpisodeId + 1 } := by
      rw [h1]
    have hany2 : ({ db with
          episodes := db.episodes ++ [episodeInsertRow db sid ep],
          nextEpisodeId := db.nextEpisodeId + 1 }
        : DB).episodes.any
          (episodeKey sid ep.season_number ep.episode_number) = true := by
      show (db.episodes ++ [episodeInsertRow db sid ep]).any
        (episodeKey sid ep.season_number ep.episode_number) = true
      simp [List.any_append, episodeInsertRow_key db sid ep m k hm2 hk2]
    obtain ⟨r1, hr1, h2⟩ := upsert_episode_conflict _ sid ep hany2
    have hr1eq : r1 = episodeInsertRow db sid ep := by
      have h3 : (db.episodes ++ [episodeInsertRow db sid ep]).find?
          (episodeKey sid ep.season_number ep.episode_number) = some r1 := hr1
      rw [List.find?_append,
          List.find?_eq_none.mpr (List.any_eq_false.mp hcf),
          List.find?_cons_of_pos _
            (episodeInsertRow_key db sid ep m k hm2 hk2),
          Option.none_or] at h3
      exact (Option.some.inj h3).symm
    have hmap : episodeUpdWhere ep sid
        (db.episodes ++ [episodeInsertRow db sid ep])
        = db.episodes ++ [episodeInsertRow db sid ep] := by
      unfold episodeUpdWhere
      rw [List.map_append,
          updWhere_nomatch (episodeKey sid ep.season_number ep.episode_number)
            (episodeUpd ep) db.episodes
            (fun r hr => by simpa using List.any_eq_false.mp hcf r hr)]
      simp [episodeInsertRow_key db sid ep m k hm2 hk2]
      rfl
    rw [hfst, h2, h1, hr1eq]
    refine Prod.ext ?_ ?_
    · simp [hmap]
    · rfl

end PyBingeBuddy

namespace PyBingeBuddy

/-- Uniqueness of `tmdb_id` across the `shows` table. -/
def showsUnique (db : DB) : Prop :=
  db.shows.Pairwise (fun a b => showKey a.tmdb_id b = false)

/-- Uniqueness of `(show_id, season_number)` across the `seasons` table
(`NULL` keys never collide, as in SQLite). -/
def seasonsUnique (db : DB) : Prop :=
  db.seasons.Pairwise (fun a b => seasonKey a.show_id a.season_number b = false)

/-- Uniqueness of `(show_id, season_number, episode_number)` across the
`episodes` table. -/
def episodesUnique (db : DB) : Prop :=
  db.episodes.Pairwise
    (fun a b => episodeKey a.show_id a.season_number a.episode_number b = false)

theorem sqlEq_comm (a b : Option Int) : sqlEq a b = sqlEq b a := by
  cases a <;> cases b <;> simp [sqlEq, Bool.beq_comm]

theorem showKey_symm (a b : DBShowRow) :
    showKey a.tmdb_id b = showKey b.tmdb_id a := by
  simp [showKey, Bool.beq_comm]

theorem seasonKey_symm (a b : DBSeasonRow) :
    seasonKey a.show_id a.season_number b
      = seasonKey b.show_id b.season_number a := by
  simp [seasonKey, Bool.beq_comm, sqlEq_comm]

theorem episodeKey_symm (a b : DBEpisodeRow) :
    episodeKey a.show_id a.season_number a.episode_number b
      = episodeKey b.show_id b.season_number b.episode_number a := by
  simp [episodeKey, Bool.beq_comm, sqlEq_comm]

/-- `upsert_show` preserves uniqueness of `tmdb_id`. -/
theorem upsert_show_unique (db : DB) (details : ShowDetails)
    (h : showsUnique db) : showsUnique (upsert_show db details).1 := by
  cases hid : details.id with
  | none =>
      simp only [upsert_show, hid]
      exact h
  | some tid =>
      have htid : ∀ r : DBShowRow,
          ((if showKey tid r then showUpd details r else r) : DBShowRow).tmdb_id
            = r.tmdb_id := by
        intro r
        by_cases hr : showKey tid r = true <;> simp [hr, showUpd]
      by_cases hc : db.shows.any (showKey tid) = true
      · obtain ⟨r0, hr0, h1⟩ := upsert_show_conflict db details tid hid hc
        rw [h1]
        show (showUpdWhere details tid db.shows).Pairwise
          (fun a b => showKey a.tmdb_id b = false)
        unfold showUpdWhere
        rw [List.pairwise_map]
        refine h.imp ?_
        intro a b hab
        show ((if showKey tid b = true then showUpd details b else b).tmdb_id
            == (if showKey tid a = true then showUpd details a
                else a).tmdb_id) = false
        rw [htid, htid]
        exact hab
      · have hcf : db.shows.any (showKey tid) = false := by
          cases h2 : db.shows.any (showKey tid)
          · rfl
          · exact absurd h2 hc
        rw [upsert_show_insert db details tid hid hcf]
        show (db.shows ++ [showInsertRow db details tid]).Pairwise
          (fun a b => showKey a.tmdb_id b = false)
        rw [List.pairwise_append]
        refine ⟨h, List.pairwise_singleton _ _, ?_⟩
        intro a ha b hb
        simp only [List.mem_singleton] at hb
        subst hb
        rw [showKey_symm]
        have h2 := List.any_eq_false.mp hcf a ha
        show showKey tid a = false
        cases h3 : showKey tid a
        · rfl
        · exact absurd h3 h2

/-- `upsert_season` preserves uniqueness of `(show_id, season_number)`. -/
theorem upsert_season_unique (db : DB) (sid : Nat) (so : SeasonDetails)
    (h : seasonsUnique db) : seasonsUnique (upsert_season db sid so).1 := by
  have hkeep1 : ∀ r : DBSeasonRow,
      ((if seasonKey sid so.season_number r = true then seasonUpd so r else r)
        : DBSeasonRow).show_id = r.show_id := by
    intro r
    by_cases hr : seasonKey sid so.season_number r = true <;>
      simp [hr, seasonUpd]
  have hkeep2 : ∀ r : DBSeasonRow,
      ((if seasonKey sid so.season_number r = true then seasonUpd so r else r)
        : DBSeasonRow).season_number = r.season_number := by
    intro r
    by_cases hr : seasonKey sid so.season_number r = true <;>
      simp [hr, seasonUpd]
  by_cases hc : db.seasons.any (seasonKey sid so.season_number) = true
  · obtain ⟨r0, hr0, h1⟩ := upsert_season_conflict db sid so hc
    rw [h1]
    show (seasonUpdWhere so sid db.seasons).Pairwise
      (fun a b => seasonKey a.show_id a.season_number b = false)
    unfold seasonUpdWhere
    rw [List.pairwise_map]
    refine h.imp ?_
    intro a b hab
    show ((if seasonKey sid so.season_number b = true then seasonUpd so b
            else b).show_id
        == (if seasonKey sid so.season_number a = true then seasonUpd so a
            else a).show_id
        && sqlEq
            ((if seasonKey sid so.season_number b = true then seasonUpd so b
              else b) : DBSeasonRow).season_number
            ((if seasonKey sid so.season_number a = true then seasonUpd so a
              else a) : DBSeasonRow).season_number) = false
    rw [hkeep1, hkeep1, hkeep2, hkeep2]
    exact hab
  · have hcf : db.seasons.any (seasonKey sid so.season_number) = false := by
      cases h2 : db.seasons.any (seasonKey sid so.season_number)
      · rfl
      · exact absurd h2 hc
    have hseasons : (upsert_season db sid so).1.seasons
        = db.seasons ++ [seasonInsertRow db sid so] := by
      simp [upsert_season, hcf]
      split <;> rfl
    show (upsert_season db sid so).1.seasons.Pairwise
      (fun a b => seasonKey a.show_id a.season_number b = false)
    rw [hseasons, List.pairwise_append]
    refine ⟨h, List.pairwise_singleton _ _, ?_⟩
    intro a ha b hb
    simp only [List.mem_singleton] at hb
    subst hb
    rw [seasonKey_symm]
    have h2 := List.any_eq_false.mp hcf a ha
    show seasonKey sid so.season_number a = false
    cases h3 : seasonKey sid so.season_number a
    · rfl
    · exact absurd h3 h2

/-- `upsert_episode` preserves uniqueness of
`(show_id, season_number, episode_number)`. -/
theorem upsert_episode_unique (db : DB) (sid : Nat) (ep : EpisodeObj)
    (h : episodesUnique db) : episodesUnique (upsert_episode db sid ep).1 := by
  have hkeep1 : ∀ r : DBEpisodeRow,
      ((if episodeKey sid ep.season_number ep.episode_number r = true then
          episodeUpd ep r
        else r) : DBEpisodeRow).show_id = r.show_id := by
    intro r
    by_cases hr : episodeKey sid ep.season_number ep.episode_number r = true <;>
      simp [hr, episodeUpd]
  have hkeep2 : ∀ r : DBEpisodeRow,
      ((if episodeKey sid ep.season_number ep.episode_number r = true then
          episodeUpd ep r
        else r) : DBEpisodeRow).season_number = r.season_number := by
    intro r
    by_cases hr : episodeKey sid ep.season_number ep.episode_number r = true <;>
      simp [hr, episodeUpd]
  have hkeep3 : ∀ r : DBEpisodeRow,
      ((if episodeKey sid ep.season_number ep.episode_number r = true then
          episodeUpd ep r
        else r) : DBEpisodeRow).episode_number = r.episode_number := by
    intro r
    by_cases hr : episodeKey sid ep.season_number ep.episode_number r = true <;>
      simp [hr, episodeUpd]
  by_cases hc : db.episodes.any
      (episodeKey sid ep.season_number ep.episode_number) = true
  · obtain ⟨r0, hr0, h1⟩ := upsert_episode_conflict db sid ep hc
    rw [h1]
    show (episodeUpdWhere ep sid db.episodes).Pairwise
      (fun a b => episodeKey a.show_id a.season_number a.episode_number b
        = false)
    unfold episodeUpdWhere
    rw [List.pairwise_map]
    refine h.imp ?_
    intro a b hab
    show ((if episodeKey sid ep.season_number ep.episode_number b = true then
            episodeUpd ep b
          else b).show_id
        == (if episodeKey sid ep.season_number ep.episode_number a = true then
            episodeUpd ep a
          else a).show_id
        && sqlEq
            ((if episodeKey sid ep.season_number ep.episode_number b
                = true then episodeUpd ep b
              else b) : DBEpisodeRow).season_number
            ((if episodeKey sid ep.season_number ep.episode_number a
                = true then episodeUpd ep a
              else a) : DBEpisodeRow).season_number
        && sqlEq
            ((if episodeKey sid ep.season_number ep.episode_number b
                = true then episodeUpd ep b
              else b) : DBEpisodeRow).episode_number
            ((if episodeKey sid ep.season_number ep.episode_number a
                = true then episodeUpd ep a
              else a) : DBEpisodeRow).episode_number) = false
    rw [hkeep1, hkeep1, hkeep2, hkeep2, hkeep3, hkeep3]
    exact hab
  · have hcf : db.episodes.any
        (episodeKey sid ep.season_number ep.episode_number) = false := by
      cases h2 : db.episodes.any
          (episodeKey sid ep.season_number ep.episode_number)
      · rfl
      · exact absurd h2 hc
    have hepisodes : (upsert_episode db sid ep).1.episodes
        = db.episodes ++ [episodeInsertRow db sid ep] := by
      simp [upsert_episode, hcf]
      split <;> rfl
    show (upsert_episode db sid ep).1.episodes.Pairwise
      (fun a b => episodeKey a.show_id a.season_number a.episode_number b
        = false)
    rw [hepisodes, List.pairwise_append]
    refine ⟨h, List.pairwise_singleton _ _, ?_⟩
    intro a ha b hb
    simp only [List.mem_singleton] at hb
    subst hb
    rw [episodeKey_symm]
    have h2 := List.any_eq_false.mp hcf a ha
    show episodeKey sid ep.season_number ep.episode_number a = false
    cases h3 : episodeKey sid ep.season_number ep.episode_number a
    · rfl
    · exact absurd h3 h2

end PyBingeBuddy

namespace PyBingeBuddy

/-- After `upsert_season`, every row matching the upsert key carries the
fields of the latest upsert. -/
theorem upsert_season_latest (db : DB) (sid : Nat) (so : SeasonDetails) :
    ∀ r ∈ (upsert_season db sid so).1.seasons,
      seasonKey sid so.season_number r = true →
      r.name = so.name ∧ r.air_date = so.air_date ∧
        r.episode_count = so.episode_count := by
  by_cases hc : db.seasons.any (seasonKey sid so.season_number) = true
  · obtain ⟨r0, hr0, h1⟩ := upsert_season_conflict db sid so hc
    rw [h1]
    intro r hr hkey
    have hr2 : r ∈ db.seasons.map
        (fun x => if seasonKey sid so.season_number x = true then seasonUpd so x
                  else x) := hr
    obtain ⟨r0x, hmem, hfe⟩ := List.mem_map.mp hr2
    by_cases hk0 : seasonKey sid so.season_number r0x = true
    · rw [← hfe]
      simp [hk0, seasonUpd]
    · exfalso
      apply hk0
      rw [← hfe, if_neg hk0] at hkey
      exact hkey
  · have hcf : db.seasons.any (seasonKey sid so.season_number) = false := by
      cases h2 : db.seasons.any (seasonKey sid so.season_number)
      · rfl
      · exact absurd h2 hc
    have hseasons : (upsert_season db sid so).1.seasons
        = db.seasons ++ [seasonInsertRow db sid so] := by
      simp [upsert_season, hcf]
      split <;> rfl
    intro r hr hkey
    rw [hseasons] at hr
    rcases List.mem_append.mp hr with hmem | hmem
    · exact absurd hkey (List.any_eq_false.mp hcf r hmem)
    · simp only [List.mem_singleton] at hmem
      subst hmem
      exact ⟨rfl, rfl, rfl⟩

/-- After `upsert_episode`, every row matching the upsert key carries the
updated fields of the latest upsert (`tmdb_episode_id` is deliberately not
part of the conflict update). -/
theorem upsert_episode_latest (db : DB) (sid : Nat) (ep : EpisodeObj) :
    ∀ r ∈ (upsert_episode db sid ep).1.episodes,
      episodeKey sid ep.season_number ep.episode_number r = true →
      r.name = ep.name ∧ r.air_date = ep.air_date ∧
        r.overview = ep.overview ∧ r.runtime = ep.runtime := by
  by_cases hc : db.episodes.any
      (episodeKey sid ep.season_number ep.episode_number) = true
  · obtain ⟨r0, hr0, h1⟩ := upsert_episode_conflict db sid ep hc
    rw [h1]
    intro r hr hkey
    have hr2 : r ∈ db.episodes.map
        (fun x => if episodeKey sid ep.season_number ep.episode_number x
            = true then episodeUpd ep x
          else x) := hr
    obtain ⟨r0x, hmem, hfe⟩ := List.mem_map.mp hr2
    by_cases hk0 : episodeKey sid ep.season_number ep.episode_number r0x
        = true
    · rw [← hfe]
      simp [hk0, episodeUpd]
    · exfalso
      apply hk0
      rw [← hfe, if_neg hk0] at hkey
      exact hkey
  · have hcf : db.episodes.any
        (episodeKey sid ep.season_number ep.episode_number) = false := by
      cases h2 : db.episodes.any
          (episodeKey sid ep.season_number ep.episode_number)
      · rfl
      · exact absurd h2 hc
    have hepisodes : (upsert_episode db sid ep).1.episodes
        = db.episodes ++ [episodeInsertRow db sid ep] := by
      simp [upsert_episode, hcf]
      split <;> rfl
    intro r hr hkey
    rw [hepisodes] at hr
    rcases List.mem_append.mp hr with hmem | hmem
    · exact absurd hkey (List.any_eq_false.mp hcf r hmem)
    · simp only [List.mem_singleton] at hmem
      subst hmem
      exact ⟨rfl, rfl, rfl, rfl⟩

/-- Claim C8: the reconciliation upserts are idempotent — running each of
`upsert_show`, `upsert_season`, `upsert_episode` twice with identical
fetched data yields exactly the store of a single run (hence unchanged row
counts), the natural-key uniqueness of each table is preserved (no duplicate
rows are created), and every key-matching row's fields reflect the latest
upsert.  Season and episode idempotence require the natural keys to be
non-null, as a SQLite `NULL` key never conflicts. -/
theorem reconciliation_upserts_idempotent (db : DB) (details : ShowDetails)
    (sid : Nat) (so : SeasonDetails) (eid : Nat) (ep : EpisodeObj)
    (hn : so.season_number.isSome = true)
    (hm : ep.season_number.isSome = true)
    (hk : ep.episode_number.isSome = true) :
    upsert_show (upsert_show db details).1 details = upsert_show db details ∧
    upsert_season (upsert_season db sid so).1 sid so
      = upsert_season db sid so ∧
    upsert_episode (upsert_episode db eid ep).1 eid ep
      = upsert_episode db eid ep ∧
    (showsUnique db → showsUnique (upsert_show db details).1) ∧
    (seasonsUnique db → seasonsUnique (upsert_season db sid so).1) ∧
    (episodesUnique db → episodesUnique (upsert_episode db eid ep).1) ∧
    (upsert_season (upsert_season db sid so).1 sid so).1.seasons.length
      = (upsert_season db sid so).1.seasons.length ∧
    (upsert_episode (upsert_episode db eid ep).1 eid ep).1.episodes.length
      = (upsert_episode db eid ep).1.episodes.length ∧
    (∀ r ∈ (upsert_season db sid so).1.seasons,
      seasonKey sid so.season_number r = true →
      r.name = so.name ∧ r.air_date = so.air_date ∧
        r.episode_count = so.episode_count) ∧
    (∀ r ∈ (upsert_episode db eid ep).1.episodes,
      episodeKey eid ep.season_number ep.episode_number r = true →
      r.name = ep.name ∧ r.air_date = ep.air_date ∧
        r.overview = ep.overview ∧ r.runtime = ep.runtime) :=
  ⟨upsert_show_idem db details,
   upsert_season_idem db sid so hn,
   upsert_episode_idem db eid ep hm hk,
   upsert_show_unique db details,
   upsert_season_unique db sid so,
   upsert_episode_unique db eid ep,
   by rw [upsert_season_idem db sid so hn],
   by rw [upsert_episode_idem db eid ep hm hk],
   upsert_season_latest db sid so,
   upsert_episode_latest db eid ep⟩

def dbC8 : DB :=
  { shows := [], seasons := [], episodes := [],
    nextShowId := 1, nextSeasonId := 1, nextEpisodeId := 1 }

def detailsC8 : ShowDetails :=
  { id := some 100, name := some "Show A", original_name := none,
    status := some "Returning Series", overview := some "o",
    poster_path := some "/p.png", first_air_date := some "2020-01-01",
    last_air_date := some "2024-02-23",
    next_episode_to_air := some { air_date := some "2024-03-01" },
    seasons := [{ season_number := some 1 }] }

def seasonC8 : SeasonDetails :=
  { season_number := some 1, name := some "Season 1",
    air_date := some "2020-01-01", episode_count := some 2, episodes := [] }

def epC8 : EpisodeObj :=
  { season_number := some 1, episode_number := some 2, id := some 9002,
    name := some "E2", air_date := some "2020-01-08", overview := some "e",
    runtime := some 40 }

theorem reconciliation_upserts_idempotent_witness :
    seasonC8.season_number.isSome = true ∧
    epC8.season_number.isSome = true ∧
    epC8.episode_number.isSome = true ∧
    upsert_season (upsert_season dbC8 1 seasonC8).1 1 seasonC8
      = upsert_season dbC8 1 seasonC8 :=
  ⟨by decide, by decide, by decide,
   (reconciliation_upserts_idempotent dbC8 detailsC8 1 seasonC8 1 epC8
     (by decide) (by decide) (by decide)).2.1⟩

end PyBingeBuddy

/-- Claim C10: the rows returned by `upcoming_for_user` are exactly the
episodes of shows the user tracks, with a non-null air date inside the
inclusive `[start_date, end_date]` range and no watch record by that user,
projected to `(show_name, season, episode, name, air_date)`; and the result
is sorted by air date, then show name, then season number, then episode
number. -/
theorem upcoming_for_user_spec (db : Tasks.QDB) (user_id : Nat)
    (start_date end_date : String) :
    (∀ t : Tasks.Item,
      t ∈ Tasks.upcoming_for_user db user_id start_date end_date ↔
      ∃ ep ∈ db.episodes, ∃ sh ∈ db.shows,
        sh.id = ep.show_id ∧
        (∃ us ∈ db.user_shows, us.show_id = ep.show_id ∧
          us.user_id = user_id) ∧
        (¬ ∃ w ∈ db.watches, w.user_id = user_id ∧ w.episode_id = ep.id) ∧
        (∃ a, ep.air_date = some a ∧ start_date ≤ a ∧ a ≤ end_date ∧
          t = (sh.name, ep.season_number, ep.episode_number,
               ep.name.getD "", a))) ∧
    List.Sorted Tasks.rowLe
      (Tasks.upcoming_for_user db user_id start_date end_date) := by
  constructor
  · intro t
    simp only [Tasks.upcoming_for_user, List.mem_insertionSort, List.mem_map,
      List.mem_filter, List.mem_flatMap, List.isEmpty_iff,
      List.filter_eq_nil_iff, Bool.and_eq_true, beq_iff_eq, decide_eq_true_eq]
    constructor
    · rintro ⟨p, ⟨⟨ep, hep, sh, ⟨hshmem, hshid⟩, us, ⟨husmem, hus1, hus2⟩, hpe⟩,
        hw, hair⟩, hproj⟩
      subst hpe
      cases ha : ep.air_date with
      | none =>
          rw [ha] at hair
          simp at hair
      | some a =>
          rw [ha] at hair
          simp only [Bool.and_eq_true, decide_eq_true_eq] at hair
          rw [ha] at hproj
          refine ⟨ep, hep, sh, hshmem, hshid, ⟨us, husmem, hus1, hus2⟩, ?_,
            a, ha, hair.1, hair.2, ?_⟩
          · rintro ⟨w, hwmem, hw1, hw2⟩
            exact (hw w hwmem) ⟨hw1, hw2⟩
          · simpa using hproj.symm
    · rintro ⟨ep, hep, sh, hshmem, hshid, ⟨us, husmem, hus1, hus2⟩, hnw,
        a, ha, h1, h2, ht⟩
      refine ⟨(ep, sh),
        ⟨⟨ep, hep, sh, ⟨hshmem, hshid⟩, us, ⟨husmem, hus1, hus2⟩, rfl⟩,
         ?_, ?_⟩, ?_⟩
      · intro w hwmem hcon
        exact hnw ⟨w, hwmem, hcon.1, hcon.2⟩
      · rw [ha]
        simp [h1, h2]
      · rw [ha, ht]
        simp
  · exact List.sorted_insertionSort Tasks.rowLe _
